import Mathlib

/-!
Shallow embedding of the hourly electricity-system simulation engine
(`js/simulator.js` of SistemaElectricoFuturo) together with the model
constants of `js/charts.js` (`SEF.MODEL`, `SEF.TEMP_MENSUAL`,
`SEF.PARAMS_DEFAULT`).  JavaScript numbers are modelled as real numbers;
`Math.sin`, `Math.cos`, `Math.exp`, `Math.log`, `Math.sqrt` and
`Math.pow` become the corresponding `Real` functions, `Math.floor`
becomes `Int.floor`, and `Math.min`/`Math.max` become `min`/`max`.
-/

noncomputable section

open Real

/-- Constant `SEF.MODEL.HORAS_ANUALES` (hours in the simulated year). -/
def HORAS_ANUALES : ℕ := 8760

/-- Constant `SEF.MODEL.LATITUD_ESPANA` (degrees north). -/
def LATITUD_ESPANA : ℝ := 40.4

/-- Constant `SEF.MODEL.FACTOR_CO2_GAS` (tCO2 per thermal MWh of gas). -/
def FACTOR_CO2_GAS : ℝ := 0.202

/-- Constant `SEF.MODEL.EFICIENCIA_BAT` (battery round-trip efficiency). -/
def EFICIENCIA_BAT : ℝ := 0.90

/-- Constant `SEF.MODEL.EFICIENCIA_BOMBEO` (pumped-storage round-trip efficiency). -/
def EFICIENCIA_BOMBEO : ℝ := 0.75

/-- Constant `SEF.MODEL.FC_NUCLEAR` (nuclear capacity factor). -/
def FC_NUCLEAR : ℝ := 0.90

/-- Constant `SEF.MODEL.AUTODESCARGA_BAT` (hourly battery self-discharge). -/
def AUTODESCARGA_BAT : ℝ := 0.001

/-- Constant `SEF.MODEL.RAMPA_CCGT` (maximum CCGT ramp per hour, per GW installed). -/
def RAMPA_CCGT : ℝ := 0.15

/-- Table `SEF.TEMP_MENSUAL` (mean monthly temperatures, Madrid). -/
def TEMP_MENSUAL : List ℝ :=
  [6.3, 7.9, 11.2, 13.7, 17.6, 23.4, 27.0, 26.4, 21.8, 15.8, 10.1, 6.9]

/-- The scenario parameters of the simulator (`SEF.PARAMS_DEFAULT` lists
the fields; the constructor of `SimuladorElectrico` merges caller
overrides into the defaults, producing one flat record). -/
structure Params where
  nuclear : ℝ
  solar : ℝ
  eolica : ℝ
  hidraulica : ℝ
  ccgt : ℝ
  bateriasPotencia : ℝ
  bateriasCapacidad : ℝ
  bombeo : ℝ
  bombeoCapacidad : ℝ
  precioGas : ℝ
  precioCO2 : ℝ
  rendimientoCCGT : ℝ
  omCCGT : ℝ
  cargosSistema : ℝ
  perdidasRed : ℝ
  semilla : ℝ
  demandaAnual : ℝ
  hidraulicidad : ℝ
  anioObjetivo : ℝ
  crecimientoDemanda : ℝ
  electrificacionTWh : ℝ
  eficienciaDemanda : ℝ
  aplicarPlanNuclear : Bool
  cierreNuclear : ℝ
  flexibilidadGW : ℝ
  flexibilidadPct : ℝ
  interconexion : ℝ
  precioImport : ℝ
  precioExport : ℝ
  precioEscasez : ℝ

/-- Defaults `SEF.PARAMS_DEFAULT` of `js/charts.js`. -/
def PARAMS_DEFAULT : Params where
  nuclear := 7.0
  solar := 25.0
  eolica := 31.0
  hidraulica := 17.0
  ccgt := 24.0
  bateriasPotencia := 3.0
  bateriasCapacidad := 10
  bombeo := 3.5
  bombeoCapacidad := 30
  precioGas := 42
  precioCO2 := 65
  rendimientoCCGT := 0.55
  omCCGT := 3.0
  cargosSistema := 12.0
  perdidasRed := 0.05
  semilla := 42
  demandaAnual := 260
  hidraulicidad := 1.0
  anioObjetivo := 2030
  crecimientoDemanda := 0.6
  electrificacionTWh := 2.0
  eficienciaDemanda := 0.5
  aplicarPlanNuclear := true
  cierreNuclear := 2035
  flexibilidadGW := 4.0
  flexibilidadPct := 6
  interconexion := 3.0
  precioImport := 90
  precioExport := 5
  precioEscasez := 350

/-- The state of the seeded pseudo-random generator (`class SeededRNG`). -/
structure SeededRNG where
  seed : ℝ

namespace SeededRNG

/-- Method `SeededRNG.next()`: advances the seed by
`seed = sin(seed*9301 + 49297) * 49271` and returns the fractional part
`seed - floor(seed)` together with the advanced generator. -/
def next (r : SeededRNG) : ℝ × SeededRNG :=
  let s := Real.sin (r.seed * 9301 + 49297) * 49271
  (s - (⌊s⌋ : ℝ), ⟨s⟩)

/-- Method `SeededRNG.gauss(media, sigma)`: simplified Box–Muller from two
uniform draws, the first floor-clamped away from 0. -/
def gauss (r : SeededRNG) (media sigma : ℝ) : ℝ × SeededRNG :=
  let p1 := next r
  let u1 := max 1e-10 p1.1
  let p2 := next p1.2
  let z := Real.sqrt (-2 * Real.log u1) * Real.cos (2 * Real.pi * p2.1)
  (media + sigma * z, p2.2)

end SeededRNG

/-- Function `calcularSolar(dia, hora, nubes)`: normalized solar capacity factor
from real solar geometry at Spain's latitude. -/
def calcularSolar (dia hora : ℕ) (nubes : ℝ) : ℝ :=
  let lat := LATITUD_ESPANA * Real.pi / 180
  let decl := 23.45 * Real.sin (2 * Real.pi * (284 + (dia : ℝ)) / 365) * Real.pi / 180
  let omega := ((hora : ℝ) - 12) * 15 * Real.pi / 180
  let sinElev := Real.sin lat * Real.sin decl +
                 Real.cos lat * Real.cos decl * Real.cos omega
  if sinElev ≤ 0.01 then 0
  else
    let AM := 1 / max 0.05 sinElev
    let transmitancia := 0.75 * (0.70 : ℝ) ^ (AM ^ (0.678 : ℝ))
    let irradiancia := sinElev * transmitancia
    max 0 (min 1 (irradiancia * nubes * 1.35))

/-- Function `calcularDemandaAjustada()`: annual demand (TWh) adjusted by target
year, growth, electrification and efficiency, clamped to [180, 360]. -/
def calcularDemandaAjustada (p : Params) : ℝ :=
  let anioBase : ℝ := 2026
  let years := max 0 (p.anioObjetivo - anioBase)
  let crec := (1 + p.crecimientoDemanda / 100) ^ years
  let electr := p.electrificacionTWh * years
  let efic := max 0.85 (1 - p.eficienciaDemanda / 100)
  max 180 (min 360 ((p.demandaAnual * crec + electr) * efic))

/-- Function `calcularNuclearDisponible()`: nuclear capacity available under the
decommission plan. -/
def calcularNuclearDisponible (p : Params) : ℝ :=
  if !p.aplicarPlanNuclear then p.nuclear
  else
    let anioBase : ℝ := 2026
    let cierre := max (anioBase + 1) p.cierreNuclear
    let years := max 0 (p.anioObjetivo - anioBase)
    let horizonte := max 1 (cierre - anioBase)
    max 0 (p.nuclear * max 0 (1 - years / horizonte))

/-- Function `calcularHidro(dia, hora, rng)`: seasonal dispatchable hydro factor
(the `hora` and `rng` arguments of the source are unused by its body). -/
def calcularHidro (p : Params) (dia : ℕ) : ℝ :=
  let mes := (⌊(dia : ℝ) / 30.5⌋ % 12 : ℤ)
  let baseEstacional := 0.28 + 0.28 * Real.cos (((mes : ℝ) - 4) * Real.pi / 6)
  max 0.08 (min 0.85 (baseEstacional * p.hidraulicidad))

/-- The per-hour generation record (the `gen` object of the dispatch loop). -/
structure Gen where
  nuclear : ℝ
  solar : ℝ
  eolica : ℝ
  hidraulica : ℝ
  gas : ℝ
  baterias : ℝ
  bombeo : ℝ
  vertido : ℝ
  cargaBaterias : ℝ
  cargaBombeo : ℝ
  importacion : ℝ
  exportacion : ℝ

/-- The all-zero generation record (`gen` as initialized each hour). -/
def Gen.cero : Gen :=
  ⟨0, 0, 0, 0, 0, 0, 0, 0, 0, 0, 0, 0⟩

/-- The price-formation context (the `ctx` object: import, export and
residual deficit of the hour). -/
structure Contexto where
  importacion : ℝ
  exportacion : ℝ
  deficit : ℝ

/-- Function `calcularPrecioMarginal(gen, demandaGW, ratioRenovable,
contexto, gasAnterior)`: the marginal spot price of one hour. -/
def calcularPrecioMarginal (p : Params) (gen : Gen) (demandaGW ratioRenovable : ℝ)
    (contexto : Contexto) (gasAnterior : ℝ) : ℝ :=
  let calorEsp := 1 / max 0.45 p.rendimientoCCGT
  let costeComb := p.precioGas * calorEsp
  let costeCO2 := FACTOR_CO2_GAS / max 0.45 p.rendimientoCCGT * p.precioCO2
  let costeCCGT := costeComb + costeCO2 + p.omCCGT
  let stressCCGT := min 1 (gen.gas / max 0.5 p.ccgt)
  let stressHidro := min 1 (gen.hidraulica / max 0.5 p.hidraulica)
  let precio0 :=
    if 1.20 < ratioRenovable then
      max (-20) (5 - (ratioRenovable - 1) * 45)
    else if 1.05 < ratioRenovable then
      5 + (1.2 - ratioRenovable) * 100
    else if 0.3 < gen.gas then
      let primaStress := 12 * stressCCGT ^ (1.5 : ℝ)
      let deltGas := max 0 (gen.gas - gasAnterior)
      let primaRampa := if 1 < deltGas then 3 * deltGas else 0
      costeCCGT + primaStress + primaRampa
    else if 0.5 < gen.hidraulica then
      25 + 25 * stressHidro
    else
      6 + (1 - ratioRenovable) * 30
  let precio1 :=
    if 0 < contexto.importacion then
      let stressImport := min 1 (contexto.importacion / max 0.5 p.interconexion)
      max precio0 (p.precioImport * (0.85 + 0.3 * stressImport))
    else precio0
  let precio2 :=
    if 0 < contexto.exportacion then min precio1 (p.precioExport + 10)
    else precio1
  let precio3 :=
    if 0.3 < contexto.deficit then
      let deficitPct := contexto.deficit / max 1 demandaGW
      max precio2 (p.precioEscasez * min 1 (deficitPct * 4))
    else precio2
  let precio4 := precio3 * (1 + p.perdidasRed) + p.cargosSistema
  min 500 (max (-25) precio4)

/-- Function `percentil(arr, p)`: percentile by linear interpolation over the
numerically sorted array (`Float64Array.from(arr).sort()`). -/
def percentil (arr : List ℝ) (p : ℝ) : ℝ :=
  if arr = [] then 0
  else
    let sorted := arr.insertionSort (· ≤ ·)
    let k := ((arr.length : ℝ) - 1) * (p / 100)
    let f := ⌊k⌋
    let c := ⌈k⌉
    if f = c then sorted.getD f.toNat 0
    else sorted.getD f.toNat 0 +
      (sorted.getD c.toNat 0 - sorted.getD f.toNat 0) * (k - (f : ℝ))

/-- A synoptic wind block (`{ inicio, duracion, intensidad }`). -/
structure Bloque where
  inicio : ℕ
  duracion : ℕ
  intensidad : ℝ

/-- The block-generation `while` loop of `generarSerieViento`: starting
at hour `h`, draws blocks of duration `floor(48 + next()*120)` until the
year is covered.  The first argument is recursion fuel; the source loop
always terminates within `HORAS_ANUALES` iterations because every duration
is at least 48. -/
def generarBloques : ℕ → SeededRNG → ℕ → List Bloque × SeededRNG
  | 0, r, _ => ([], r)
  | fuel + 1, r, h =>
    if h < HORAS_ANUALES then
      let p1 := r.next
      let duracion := (⌊(48 : ℝ) + p1.1 * 120⌋).toNat
      let p2 := p1.2.next
      let rest := generarBloques fuel p2.2 (h + duracion)
      (⟨h, duracion, p2.1⟩ :: rest.1, rest.2)
    else ([], r)

/-- The `for (const b of bloques) ... break` lookup of the dispatch of
hour `i` to its synoptic block: the first block containing `i` scales
the seasonal base, otherwise the base is kept. -/
def buscarSinoptico (base : ℝ) : List Bloque → ℕ → ℝ
  | [], _ => base
  | b :: rest, i =>
    if b.inicio ≤ i ∧ i < b.inicio + b.duracion then
      base * (0.3 + b.intensidad * 1.4)
    else buscarSinoptico base rest i

/-- The per-hour loop of `generarSerieViento`: autoregressive state with
`alpha = 0.94`, seasonal base, synoptic override and diurnal factor,
clamped to `[0.02, 0.92]`.  Arguments: hours left, current hour,
state, generator. -/
def vientoHoras (bloques : List Bloque) : ℕ → ℕ → ℝ → SeededRNG → List ℝ
  | 0, _, _, _ => []
  | n + 1, i, estado, r =>
    let dia := i / 24
    let hora := i % 24
    let mes : ℤ := ⌊(dia : ℝ) / 30.5⌋
    let baseEstacional := 0.28 + 0.14 * Real.cos (((mes : ℝ) - 0.5) * Real.pi / 6)
    let sinoptico := buscarSinoptico baseEstacional bloques i
    let diurno := 1 + 0.08 * Real.sin (((hora : ℝ) - 6) * Real.pi / 12)
    let g := r.gauss 0 0.06
    let alpha : ℝ := 0.94
    let estado2 := alpha * estado + (1 - alpha) * sinoptico + g.1
    max 0.02 (min 0.92 (estado2 * diurno)) :: vientoHoras bloques n (i + 1) estado2 g.2

/-- Function `generarSerieViento(rng)`: the 8760-hour wind
capacity-factor series (synoptic blocks, then the hourly loop, both on
the same generator, initial state 0.30). -/
def generarSerieViento (r : SeededRNG) : List ℝ :=
  let b := generarBloques HORAS_ANUALES r 0
  vientoHoras b.1 HORAS_ANUALES 0 0.30 b.2

/-- The per-hour loop of `generarSerieDemanda`: temperature-sensitive
normalized demand shape.  Arguments: hours left, current hour, generator. -/
def demandaHoras : ℕ → ℕ → SeededRNG → List ℝ
  | 0, _, _ => []
  | n + 1, i, r =>
    let dia := i / 24
    let hora := i % 24
    let mes := ((⌊(dia : ℝ) / 30.5⌋ % 12 : ℤ)).toNat
    let tempBase := TEMP_MENSUAL.getD mes 0
    let varDiurna := 4.5 * Real.sin (((hora : ℝ) - 6) * Real.pi / 12)
    let g := r.gauss 0 1.5
    let temp := tempBase + varDiurna + g.1
    let factorTemp :=
      if 25 < temp then 1 + (temp - 25) * 0.018
      else if temp < 15 then 1 + (15 - temp) * 0.013
      else 1
    let picoManana := Real.exp (-(((hora : ℝ) - 10) / 2.8) ^ (2 : ℕ)) * 0.28
    let picoTarde := Real.exp (-(((hora : ℝ) - 20) / 2.5) ^ (2 : ℕ)) * 0.32
    let perfilHorario := 0.62 + picoManana + picoTarde
    let diaSemana := dia % 7
    let factorLaboral : ℝ := if diaSemana < 5 then 1.04 else 0.87
    let p2 := g.2.next
    let ruidoDemanda := 0.97 + p2.1 * 0.06
    perfilHorario * factorLaboral * factorTemp * ruidoDemanda ::
      demandaHoras n (i + 1) p2.2

/-- Function `generarSerieDemanda(rng)`: the 8760-hour normalized demand
series. -/
def generarSerieDemanda (r : SeededRNG) : List ℝ :=
  demandaHoras HORAS_ANUALES 0 r

/-- The outcome of one hour of the merit-order allocation (lines
406-510 of `simulator.js`): the hour's generation record, the local
flexible-demand adjustments, the residual unserved deficit, and the
storage levels after the branch (before battery self-discharge). -/
structure Despacho where
  gen : Gen
  flexUp : ℝ
  flexDown : ℝ
  deficitFinal : ℝ
  bateria : ℝ
  bombeo : ℝ

/-- The surplus branch of the merit-order allocation (lines 409-452):
charge battery, charge pumped storage, flexible-demand increase,
export, curtail the rest; hydro and gas forced to 0. -/
def despachoExcedente (p : Params) (demandaGW genNuclear genSolar genEolica : ℝ)
    (estadoBateria estadoBombeo : ℝ) : Despacho :=
  let excedente0 := genNuclear + genSolar + genEolica - demandaGW
  let cargaBat := min excedente0
    (min p.bateriasPotencia ((p.bateriasCapacidad - estadoBateria) / EFICIENCIA_BAT))
  let bateria1 := estadoBateria + cargaBat * EFICIENCIA_BAT
  let excedente1 := excedente0 - cargaBat
  let cargaBombeo :=
    if 0 < excedente1 then
      min excedente1
        (min p.bombeo ((p.bombeoCapacidad - estadoBombeo) / EFICIENCIA_BOMBEO))
    else 0
  let bombeo1 := estadoBombeo + cargaBombeo * EFICIENCIA_BOMBEO
  let excedente2 := excedente1 - cargaBombeo
  let flexCapGW := min p.flexibilidadGW (demandaGW * (p.flexibilidadPct / 100))
  let flexUp := if 0 < excedente2 ∧ 0 < flexCapGW then min excedente2 flexCapGW else 0
  let excedente3 := excedente2 - flexUp
  let exporta :=
    if 0 < excedente3 ∧ 0 < p.interconexion then min excedente3 p.interconexion else 0
  let excedente4 := excedente3 - exporta
  { gen := { nuclear := genNuclear, solar := genSolar, eolica := genEolica,
             hidraulica := 0, gas := 0, baterias := 0, bombeo := 0,
             vertido := max 0 excedente4, cargaBaterias := cargaBat,
             cargaBombeo := cargaBombeo, importacion := 0, exportacion := exporta }
    flexUp := flexUp, flexDown := 0, deficitFinal := 0
    bateria := bateria1, bombeo := bombeo1 }

/-- The deficit branch of the merit-order allocation (lines 454-510):
dispatch hydro, battery discharge, pumped discharge, flexible-demand
reduction, import and gas (capacity- and ramp-limited); the remainder
is the unserved deficit. -/
def despachoDeficit (p : Params) (dia : ℕ) (demandaGW genNuclear genSolar genEolica : ℝ)
    (estadoBateria estadoBombeo gasAnterior : ℝ) : Despacho :=
  let deficit0 := -(genNuclear + genSolar + genEolica - demandaGW)
  let hidroDisp := p.hidraulica * calcularHidro p dia
  let genHidraulica := min hidroDisp deficit0
  let deficit1 := deficit0 - genHidraulica
  let descBat :=
    if 0 < deficit1 ∧ 0 < estadoBateria then
      min p.bateriasPotencia (min estadoBateria deficit1)
    else 0
  let bateria1 := estadoBateria - descBat
  let deficit2 := deficit1 - descBat
  let descBombeo :=
    if 0 < deficit2 ∧ 0 < estadoBombeo then
      min p.bombeo (min estadoBombeo deficit2)
    else 0
  let bombeo1 := estadoBombeo - descBombeo
  let deficit3 := deficit2 - descBombeo
  let flexCapGW := min p.flexibilidadGW (demandaGW * (p.flexibilidadPct / 100))
  let flexDown := if 0 < deficit3 ∧ 0 < flexCapGW then min deficit3 flexCapGW else 0
  let deficit4 := deficit3 - flexDown
  let importa :=
    if 0 < deficit4 ∧ 0 < p.interconexion then min deficit4 p.interconexion else 0
  let deficit5 := deficit4 - importa
  let genGas :=
    if 0 < deficit5 then
      min deficit5 (min p.ccgt (p.ccgt * RAMPA_CCGT + gasAnterior))
    else 0
  let deficit6 := deficit5 - genGas
  { gen := { nuclear := genNuclear, solar := genSolar, eolica := genEolica,
             hidraulica := genHidraulica, gas := genGas, baterias := descBat,
             bombeo := descBombeo, vertido := 0, cargaBaterias := 0,
             cargaBombeo := 0, importacion := importa, exportacion := 0 }
    flexUp := 0, flexDown := flexDown, deficitFinal := deficit6
    bateria := bateria1, bombeo := bombeo1 }

/-- The merit-order allocation of one hour: the surplus branch when the
inflexible base exceeds demand, the deficit branch otherwise. -/
def despacho (p : Params) (dia : ℕ) (demandaGW genNuclear genSolar genEolica : ℝ)
    (estadoBateria estadoBombeo gasAnterior : ℝ) : Despacho :=
  if 0 < genNuclear + genSolar + genEolica - demandaGW then
    despachoExcedente p demandaGW genNuclear genSolar genEolica estadoBateria estadoBombeo
  else
    despachoDeficit p dia demandaGW genNuclear genSolar genEolica
      estadoBateria estadoBombeo gasAnterior

/-- The mutable state of the hourly simulation loop: storage levels, the
gas ramp reference, the meteorological generator, the `R` accumulators
and the hourly output arrays. -/
structure Estado where
  bateria : ℝ
  bombeo : ℝ
  gasAnterior : ℝ
  rngMeteo : SeededRNG
  consumoGasTWh : ℝ
  vertidosTWh : ℝ
  horasGas : ℕ
  horasVertido : ℕ
  horasDeficit : ℕ
  maxDeficit : ℝ
  emisionesAnuales : ℝ
  horasBombeoActivo : ℕ
  horasPrecioNegativo : ℕ
  horasPrecioAlto : ℕ
  importacionesTWh : ℝ
  exportacionesTWh : ℝ
  demandaFlexTWh : ℝ
  demandaReducidaTWh : ℝ
  horasImportacion : ℕ
  horasExportacion : ℕ
  horasFlex : ℕ
  demandaTotalGWh : ℝ
  precioPonderadoSum : ℝ
  mix : List Gen
  precios : List ℝ
  demandaHoraria : List ℝ

/-- The loop state before hour 0: storage at half capacity, no gas ramp
reference, empty accumulators. -/
def estadoInicial (p : Params) (rngMeteo : SeededRNG) : Estado where
  bateria := p.bateriasCapacidad * 0.5
  bombeo := p.bombeoCapacidad * 0.5
  gasAnterior := 0
  rngMeteo := rngMeteo
  consumoGasTWh := 0
  vertidosTWh := 0
  horasGas := 0
  horasVertido := 0
  horasDeficit := 0
  maxDeficit := 0
  emisionesAnuales := 0
  horasBombeoActivo := 0
  horasPrecioNegativo := 0
  horasPrecioAlto := 0
  importacionesTWh := 0
  exportacionesTWh := 0
  demandaFlexTWh := 0
  demandaReducidaTWh := 0
  horasImportacion := 0
  horasExportacion := 0
  horasFlex := 0
  demandaTotalGWh := 0
  precioPonderadoSum := 0
  mix := []
  precios := []
  demandaHoraria := []

/-- One iteration of the hourly loop of `simular()` (lines 374-539):
demand of the hour, inflexible base generation, merit-order allocation,
battery self-discharge, gas/emission accounting, marginal price and
accumulator updates. -/
def pasoHora (p : Params) (nuclearGW demandaMediaGW : ℝ)
    (serieViento serieDemanda : List ℝ) (st : Estado) (h : ℕ) : Estado :=
  let dia := h / 24
  let hora := h % 24
  let demandaGW := demandaMediaGW * serieDemanda.getD h 0
  let pn := st.rngMeteo.next
  let nubes := 0.65 + pn.1 * 0.35
  let genNuclear := nuclearGW * FC_NUCLEAR
  let genSolar := p.solar * calcularSolar dia hora nubes
  let genEolica := p.eolica * serieViento.getD h 0
  let d := despacho p dia demandaGW genNuclear genSolar genEolica
             st.bateria st.bombeo st.gasAnterior
  let bateriaFin := d.bateria * (1 - AUTODESCARGA_BAT)
  let genBase := genNuclear + genSolar + genEolica
  let ratioRen := if 0 < demandaGW then genBase / demandaGW else 0
  let ctx : Contexto :=
    ⟨d.gen.importacion, d.gen.exportacion,
     max 0 (demandaGW - genBase - d.gen.hidraulica - d.gen.baterias -
            d.gen.bombeo - d.gen.gas - d.gen.importacion)⟩
  let precio := calcularPrecioMarginal p d.gen demandaGW ratioRen ctx st.gasAnterior
  { bateria := bateriaFin
    bombeo := d.bombeo
    gasAnterior := d.gen.gas
    rngMeteo := pn.2
    consumoGasTWh := st.consumoGasTWh + d.gen.gas / 1000
    vertidosTWh := st.vertidosTWh + d.gen.vertido / 1000
    horasGas := st.horasGas + if 0.3 < d.gen.gas then 1 else 0
    horasVertido := st.horasVertido + if 0.3 < d.gen.vertido then 1 else 0
    horasDeficit := st.horasDeficit + if 0.3 < d.deficitFinal then 1 else 0
    maxDeficit := if 0.3 < d.deficitFinal then max st.maxDeficit d.deficitFinal
                  else st.maxDeficit
    emisionesAnuales := st.emisionesAnuales +
      d.gen.gas * (FACTOR_CO2_GAS / max 0.45 p.rendimientoCCGT) / 1000
    horasBombeoActivo := st.horasBombeoActivo + if 0.3 < d.gen.cargaBombeo then 1 else 0
    horasPrecioNegativo := st.horasPrecioNegativo + if precio < 0 then 1 else 0
    horasPrecioAlto := st.horasPrecioAlto + if 150 < precio then 1 else 0
    importacionesTWh := st.importacionesTWh + d.gen.importacion / 1000
    exportacionesTWh := st.exportacionesTWh + d.gen.exportacion / 1000
    demandaFlexTWh := st.demandaFlexTWh + d.flexUp / 1000
    demandaReducidaTWh := st.demandaReducidaTWh + d.flexDown / 1000
    horasImportacion := st.horasImportacion + if 0.2 < d.gen.importacion then 1 else 0
    horasExportacion := st.horasExportacion + if 0.2 < d.gen.exportacion then 1 else 0
    horasFlex := st.horasFlex + (if 0.2 < d.flexUp then 1 else 0) +
      (if 0.2 < d.flexDown then 1 else 0)
    demandaTotalGWh := st.demandaTotalGWh + demandaGW
    precioPonderadoSum := st.precioPonderadoSum + precio * demandaGW
    mix := st.mix ++ [d.gen]
    precios := st.precios ++ [precio]
    demandaHoraria := st.demandaHoraria ++ [demandaGW] }

/-- The loop state after the first `n` hours of the run whose three
sub-generator seeds are `s1` (wind), `s2` (demand) and `s3`
(clouds/hydro noise). -/
def estadoParcial (p : Params) (s1 s2 s3 : ℝ) (n : ℕ) : Estado :=
  let serieViento := generarSerieViento ⟨s1⟩
  let serieDemanda := generarSerieDemanda ⟨s2⟩
  let demandaAnualTWh := calcularDemandaAjustada p
  let demandaMediaGW := demandaAnualTWh * 1000 / (HORAS_ANUALES : ℝ)
  let nuclearGW := calcularNuclearDisponible p
  (List.range n).foldl (pasoHora p nuclearGW demandaMediaGW serieViento serieDemanda)
    (estadoInicial p ⟨s3⟩)

/-- One bucket of the monthly summary (`_calcularResumenMensual`). -/
structure Mensual where
  nuclear : ℝ
  solar : ℝ
  eolica : ℝ
  hidraulica : ℝ
  gas : ℝ
  baterias : ℝ
  vertido : ℝ
  importacion : ℝ
  exportacion : ℝ
  demanda : ℝ
  precio : ℝ
  horas : ℕ
  precioMedio : ℝ

/-- The all-zero monthly bucket. -/
def Mensual.cero : Mensual :=
  ⟨0, 0, 0, 0, 0, 0, 0, 0, 0, 0, 0, 0, 0⟩

/-- Method `_calcularResumenMensual(mix, precios, demanda)`: buckets the
8760 hours by `floor(floor(h/24)/30.5) mod 12`, accumulates, then
converts to TWh and mean price. -/
def resumenMensual (mix : List Gen) (precios demanda : List ℝ) : List Mensual :=
  let acc := (List.range HORAS_ANUALES).foldl (fun acc h =>
    let mes := ((⌊((h / 24 : ℕ) : ℝ) / 30.5⌋ % 12 : ℤ)).toNat
    let g := mix.getD h Gen.cero
    let m := acc.getD mes Mensual.cero
    acc.set mes
      { nuclear := m.nuclear + g.nuclear
        solar := m.solar + g.solar
        eolica := m.eolica + g.eolica
        hidraulica := m.hidraulica + g.hidraulica
        gas := m.gas + g.gas
        baterias := m.baterias + g.baterias + g.bombeo
        vertido := m.vertido + g.vertido
        importacion := m.importacion + g.importacion
        exportacion := m.exportacion + g.exportacion
        demanda := m.demanda + demanda.getD h 0
        precio := m.precio + precios.getD h 0
        horas := m.horas + 1
        precioMedio := m.precioMedio }) (List.replicate 12 Mensual.cero)
  acc.map (fun m =>
    { nuclear := m.nuclear / 1000
      solar := m.solar / 1000
      eolica := m.eolica / 1000
      hidraulica := m.hidraulica / 1000
      gas := m.gas / 1000
      baterias := m.baterias / 1000
      vertido := m.vertido / 1000
      importacion := m.importacion / 1000
      exportacion := m.exportacion / 1000
      demanda := m.demanda / 1000
      precio := m.precio
      horas := m.horas
      precioMedio := if 0 < m.horas then m.precio / (m.horas : ℝ) else 0 })

/-- The complete `Results` object of `simular()`. -/
structure Resultados where
  consumoGasTWh : ℝ
  vertidosTWh : ℝ
  horasGas : ℕ
  horasVertido : ℕ
  horasDeficit : ℕ
  maxDeficit : ℝ
  emisionesAnuales : ℝ
  horasBombeoActivo : ℕ
  horasPrecioNegativo : ℕ
  horasPrecioAlto : ℕ
  importacionesTWh : ℝ
  exportacionesTWh : ℝ
  demandaFlexTWh : ℝ
  demandaReducidaTWh : ℝ
  horasImportacion : ℕ
  horasExportacion : ℕ
  horasFlex : ℕ
  demandaAjustadaTWh : ℝ
  nuclearEfectivaGW : ℝ
  precioMedio : ℝ
  precioMedioPonderado : ℝ
  precioP10 : ℝ
  precioMediana : ℝ
  precioP90 : ℝ
  precioMin : ℝ
  precioMax : ℝ
  coberturaRenovable : ℝ
  dependenciaGas : ℝ
  vertidosPct : ℝ
  mensual : List Mensual
  mix : List Gen
  precios : List ℝ
  demandaHoraria : List ℝ

/-- Helper for `Math.min(...arr)` over a nonempty list. -/
def listaMin : List ℝ → ℝ
  | [] => 0
  | x :: xs => xs.foldl min x

/-- Helper for `Math.max(...arr)` over a nonempty list. -/
def listaMax : List ℝ → ℝ
  | [] => 0
  | x :: xs => xs.foldl max x

/-- The body of `simular()` once the three sub-generator seeds are
fixed: the hourly loop followed by the aggregations of lines 541-572. -/
def simularSeeded (p : Params) (s1 s2 s3 : ℝ) : Resultados :=
  let st := estadoParcial p s1 s2 s3 HORAS_ANUALES
  let precioArr := st.precios
  let precioMedio := precioArr.foldl (· + ·) 0 / (HORAS_ANUALES : ℝ)
  let genTotal := st.mix.foldl (fun s g =>
    s + g.nuclear + g.solar + g.eolica + g.hidraulica +
      g.gas + g.baterias + g.bombeo + g.importacion) 0
  let genRenovable := st.mix.foldl (fun s g => s + g.solar + g.eolica + g.hidraulica) 0
  let genGas := st.mix.foldl (fun s g => s + g.gas) 0
  let genVRE := st.mix.foldl (fun s g => s + g.solar + g.eolica) 0
  { consumoGasTWh := st.consumoGasTWh
    vertidosTWh := st.vertidosTWh
    horasGas := st.horasGas
    horasVertido := st.horasVertido
    horasDeficit := st.horasDeficit
    maxDeficit := st.maxDeficit
    emisionesAnuales := st.emisionesAnuales
    horasBombeoActivo := st.horasBombeoActivo
    horasPrecioNegativo := st.horasPrecioNegativo
    horasPrecioAlto := st.horasPrecioAlto
    importacionesTWh := st.importacionesTWh
    exportacionesTWh := st.exportacionesTWh
    demandaFlexTWh := st.demandaFlexTWh
    demandaReducidaTWh := st.demandaReducidaTWh
    horasImportacion := st.horasImportacion
    horasExportacion := st.horasExportacion
    horasFlex := st.horasFlex
    demandaAjustadaTWh := calcularDemandaAjustada p
    nuclearEfectivaGW := calcularNuclearDisponible p
    precioMedio := precioMedio
    precioMedioPonderado :=
      if 0 < st.demandaTotalGWh then st.precioPonderadoSum / st.demandaTotalGWh
      else precioMedio
    precioP10 := percentil precioArr 10
    precioMediana := percentil precioArr 50
    precioP90 := percentil precioArr 90
    precioMin := listaMin precioArr
    precioMax := listaMax precioArr
    coberturaRenovable := genRenovable / genTotal * 100
    dependenciaGas := genGas / genTotal * 100
    vertidosPct := if 0 < genVRE then st.vertidosTWh * 1000 / genVRE * 100 else 0
    mensual := resumenMensual st.mix st.precios st.demandaHoraria
    mix := st.mix
    precios := st.precios
    demandaHoraria := st.demandaHoraria }

/-- Method `simular()`: the three sub-generators are seeded with the
fixed affine derivations `semilla*7+13` (wind), `semilla*3+7` (demand)
and `semilla*11+37` (clouds/hydro noise) of the base seed, and the body
runs on them. -/
def simular (p : Params) : Resultados :=
  simularSeeded p (p.semilla * 7 + 13) (p.semilla * 3 + 7) (p.semilla * 11 + 37)

/-- The merit-order outcome of hour `h` as the loop computes it: the
same `despacho` call that `pasoHora` makes (a named view of its local
`d`). -/
def despachoHora (p : Params) (nuclearGW demandaMediaGW : ℝ)
    (serieViento serieDemanda : List ℝ) (st : Estado) (h : ℕ) : Despacho :=
  despacho p (h / 24) (demandaMediaGW * serieDemanda.getD h 0)
    (nuclearGW * FC_NUCLEAR)
    (p.solar * calcularSolar (h / 24) (h % 24) (0.65 + (st.rngMeteo.next).1 * 0.35))
    (p.eolica * serieViento.getD h 0)
    st.bateria st.bombeo st.gasAnterior

/-- The marginal price of hour `h` as the loop computes it (a named view
of the local `precio` of `pasoHora`). -/
def precioHora (p : Params) (nuclearGW demandaMediaGW : ℝ)
    (serieViento serieDemanda : List ℝ) (st : Estado) (h : ℕ) : ℝ :=
  let demandaGW := demandaMediaGW * serieDemanda.getD h 0
  let genNuclear := nuclearGW * FC_NUCLEAR
  let genSolar := p.solar * calcularSolar (h / 24) (h % 24) (0.65 + (st.rngMeteo.next).1 * 0.35)
  let genEolica := p.eolica * serieViento.getD h 0
  let d := despachoHora p nuclearGW demandaMediaGW serieViento serieDemanda st h
  let genBase := genNuclear + genSolar + genEolica
  let ratioRen := if 0 < demandaGW then genBase / demandaGW else 0
  let ctx : Contexto :=
    ⟨d.gen.importacion, d.gen.exportacion,
     max 0 (demandaGW - genBase - d.gen.hidraulica - d.gen.baterias -
            d.gen.bombeo - d.gen.gas - d.gen.importacion)⟩
  calcularPrecioMarginal p d.gen demandaGW ratioRen ctx st.gasAnterior

/-- The effective nuclear capacity as claim C8 words it: with the
decommission policy active, the installed capacity scaled by a linear
ramp from 1 at the base year (2026) to 0 at the configured decommission
year, at full capacity for target years at or before the base year and
clamped at 0 for target years at or beyond the decommission year;
unchanged when the policy is inactive. -/
def nuclearSpecC8 (p : Params) : ℝ :=
  if p.aplicarPlanNuclear then
    if p.anioObjetivo ≤ 2026 then p.nuclear
    else if p.cierreNuclear ≤ p.anioObjetivo then 0
    else p.nuclear * (1 - (p.anioObjetivo - 2026) / (p.cierreNuclear - 2026))
  else p.nuclear

/-- An all-zero parameter record (a degenerate configuration used as a
concrete test input: no capacity of any kind, decommission plan off). -/
def paramsCero : Params where
  nuclear := 0
  solar := 0
  eolica := 0
  hidraulica := 0
  ccgt := 0
  bateriasPotencia := 0
  bateriasCapacidad := 0
  bombeo := 0
  bombeoCapacidad := 0
  precioGas := 0
  precioCO2 := 0
  rendimientoCCGT := 0
  omCCGT := 0
  cargosSistema := 0
  perdidasRed := 0
  semilla := 0
  demandaAnual := 0
  hidraulicidad := 0
  anioObjetivo := 0
  crecimientoDemanda := 0
  electrificacionTWh := 0
  eficienciaDemanda := 0
  aplicarPlanNuclear := false
  cierreNuclear := 0
  flexibilidadGW := 0
  flexibilidadPct := 0
  interconexion := 0
  precioImport := 0
  precioExport := 0
  precioEscasez := 0

/-- A degenerate configuration with a negative regulated loss rate
(pass-through slope `1 + perdidasRed = -2`) and a large system charge,
used as a concrete price-formation input. -/
def paramsCx6 : Params :=
  { paramsCero with perdidasRed := -3, cargosSistema := 200, precioEscasez := 0 }

/-- The sine of the solar elevation of `calcularSolar(dia, hora, ...)`
at Spain's latitude, as a named function of the grid point (the value
of the local `sinElev`). -/
def sinElevDe (dia hora : ℕ) : ℝ :=
  Real.sin (LATITUD_ESPANA * Real.pi / 180) *
    Real.sin (23.45 * Real.sin (2 * Real.pi * (284 + (dia : ℝ)) / 365) * Real.pi / 180) +
  Real.cos (LATITUD_ESPANA * Real.pi / 180) *
    Real.cos (23.45 * Real.sin (2 * Real.pi * (284 + (dia : ℝ)) / 365) * Real.pi / 180) *
    Real.cos (((hora : ℝ) - 12) * 15 * Real.pi / 180)

/-- The storage invariant of the claim C3: both reservoir levels lie
between 0 and their capacities. -/
def almacenOK (p : Params) (bateria bombeo : ℝ) : Prop :=
  0 ≤ bateria ∧ bateria ≤ p.bateriasCapacidad ∧
    0 ≤ bombeo ∧ bombeo ≤ p.bombeoCapacidad

end

/-! ### Basic facts about the hourly loop step -/

theorem pasoHora_bateria (p : Params) (n m : ℝ) (sv sd : List ℝ) (st : Estado) (h : ℕ) :
    (pasoHora p n m sv sd st h).bateria =
      (despachoHora p n m sv sd st h).bateria * (1 - AUTODESCARGA_BAT) := rfl

theorem pasoHora_bombeo (p : Params) (n m : ℝ) (sv sd : List ℝ) (st : Estado) (h : ℕ) :
    (pasoHora p n m sv sd st h).bombeo = (despachoHora p n m sv sd st h).bombeo := rfl

theorem pasoHora_gasAnterior (p : Params) (n m : ℝ) (sv sd : List ℝ) (st : Estado) (h : ℕ) :
    (pasoHora p n m sv sd st h).gasAnterior =
      (despachoHora p n m sv sd st h).gen.gas := rfl

theorem pasoHora_rngMeteo (p : Params) (n m : ℝ) (sv sd : List ℝ) (st : Estado) (h : ℕ) :
    (pasoHora p n m sv sd st h).rngMeteo = (st.rngMeteo.next).2 := rfl

theorem pasoHora_mix (p : Params) (n m : ℝ) (sv sd : List ℝ) (st : Estado) (h : ℕ) :
    (pasoHora p n m sv sd st h).mix =
      st.mix ++ [(despachoHora p n m sv sd st h).gen] := rfl

theorem pasoHora_precios (p : Params) (n m : ℝ) (sv sd : List ℝ) (st : Estado) (h : ℕ) :
    (pasoHora p n m sv sd st h).precios =
      st.precios ++ [precioHora p n m sv sd st h] := rfl

theorem pasoHora_horasPrecioAlto (p : Params) (n m : ℝ) (sv sd : List ℝ)
    (st : Estado) (h : ℕ) :
    (pasoHora p n m sv sd st h).horasPrecioAlto =
      st.horasPrecioAlto + if 150 < precioHora p n m sv sd st h then 1 else 0 := rfl

theorem estadoParcial_succ (p : Params) (s1 s2 s3 : ℝ) (n : ℕ) :
    estadoParcial p s1 s2 s3 (n + 1) =
      pasoHora p (calcularNuclearDisponible p)
        (calcularDemandaAjustada p * 1000 / (HORAS_ANUALES : ℝ))
        (generarSerieViento ⟨s1⟩) (generarSerieDemanda ⟨s2⟩)
        (estadoParcial p s1 s2 s3 n) n := by
  unfold estadoParcial
  rw [List.range_succ, List.foldl_append, List.foldl_cons, List.foldl_nil]

theorem estadoParcial_zero (p : Params) (s1 s2 s3 : ℝ) :
    estadoParcial p s1 s2 s3 0 = estadoInicial p ⟨s3⟩ := by
  unfold estadoParcial
  rfl

attribute [irreducible] estadoParcial

/-! ### C1: determinism and sub-generator seeding -/

/-- C1: `simular` is a deterministic function of the merged parameters —
identical `ScenarioParameters` (seed included) produce identical
`Results` in every field (scalar KPIs, the 8760-entry mix and price
arrays, the monthly summary) — and the run is exactly the seeded body
whose wind, demand and cloud/hydro sub-generators are seeded with the
affine derivations `seed*7+13`, `seed*3+7` and `seed*11+37` of the base
seed. -/
theorem C1_simular_deterministico :
    (∀ p q : Params, p = q → simular p = simular q) ∧
    ∀ p : Params, simular p =
      simularSeeded p (p.semilla * 7 + 13) (p.semilla * 3 + 7) (p.semilla * 11 + 37) :=
  ⟨fun _ _ h => by rw [h], fun _ => rfl⟩

/-! ### C4: the price clamp -/

theorem calcularPrecioMarginal_mem_Icc (p : Params) (gen : Gen)
    (demandaGW ratioRenovable : ℝ) (contexto : Contexto) (gasAnterior : ℝ) :
    -25 ≤ calcularPrecioMarginal p gen demandaGW ratioRenovable contexto gasAnterior ∧
      calcularPrecioMarginal p gen demandaGW ratioRenovable contexto gasAnterior ≤ 500 := by
  unfold calcularPrecioMarginal
  exact ⟨le_min (by norm_num) (le_max_left _ _), min_le_left _ _⟩

theorem precios_estadoParcial_mem (p : Params) (s1 s2 s3 : ℝ) (n : ℕ) :
    ∀ x ∈ (estadoParcial p s1 s2 s3 n).precios, -25 ≤ x ∧ x ≤ 500 := by
  induction n with
  | zero => intro x hx; rw [estadoParcial_zero] at hx; simp [estadoInicial] at hx
  | succ n ih =>
    intro x hx
    rw [estadoParcial_succ, pasoHora_precios, List.mem_append, List.mem_singleton] at hx
    rcases hx with hx | hx
    · exact ih x hx
    · subst hx
      exact calcularPrecioMarginal_mem_Icc _ _ _ _ _ _

/-- C4: every entry of the stored price series lies in `[-25, 500]`
(out-of-range reads of `getD` return the in-range default 0), and
`calcularPrecioMarginal` itself returns a value in `[-25, 500]` for all
real inputs: the final clamp `min(500, max(-25, ·))` is applied after
the import floor, export cap, scarcity floor and regulated
pass-through. -/
theorem C4_precio_acotado :
    (∀ (p : Params) (h : ℕ),
      -25 ≤ (simular p).precios.getD h 0 ∧ (simular p).precios.getD h 0 ≤ 500) ∧
    ∀ (p : Params) (gen : Gen) (demandaGW ratioRenovable : ℝ)
      (contexto : Contexto) (gasAnterior : ℝ),
      -25 ≤ calcularPrecioMarginal p gen demandaGW ratioRenovable contexto gasAnterior ∧
        calcularPrecioMarginal p gen demandaGW ratioRenovable contexto gasAnterior ≤ 500 := by
  constructor
  · intro p h
    have hmem := precios_estadoParcial_mem p (p.semilla * 7 + 13) (p.semilla * 3 + 7)
      (p.semilla * 11 + 37) HORAS_ANUALES
    have hpre : (simular p).precios =
        (estadoParcial p (p.semilla * 7 + 13) (p.semilla * 3 + 7)
          (p.semilla * 11 + 37) HORAS_ANUALES).precios := rfl
    rw [hpre]
    set l := (estadoParcial p (p.semilla * 7 + 13) (p.semilla * 3 + 7)
      (p.semilla * 11 + 37) HORAS_ANUALES).precios with hl
    rcases lt_or_le h l.length with hlt | hle
    · have : l.getD h 0 = l[h] := List.getD_eq_getElem l 0 hlt
      rw [this]
      exact hmem _ (List.getElem_mem hlt)
    · have : l.getD h 0 = 0 := by
        unfold List.getD
        rw [List.get?_eq_none.mpr hle]
        rfl
      rw [this]; norm_num
  · exact calcularPrecioMarginal_mem_Icc

/-! ### C8: effective nuclear capacity -/

/-- C8: for every configuration with non-negative installed nuclear
capacity whose years are whole (the decommission year is at most the
base year 2026 or at least 2027, and in the former case the target year
too), the effective nuclear capacity of `calcularNuclearDisponible`
equals the claimed linear decommission ramp `nuclearSpecC8`: unchanged
capacity when the policy flag is inactive, otherwise a linear ramp from
full capacity at 2026 to 0 at the configured decommission year, clamped
at full capacity before the base year and at 0 beyond the decommission
year. -/
theorem C8_nuclear_rampa (p : Params) (hn : 0 ≤ p.nuclear)
    (hc : 2027 ≤ p.cierreNuclear ∨
      (p.cierreNuclear ≤ 2026 ∧ (p.anioObjetivo ≤ 2026 ∨ 2027 ≤ p.anioObjetivo))) :
    calcularNuclearDisponible p = nuclearSpecC8 p := by
  unfold calcularNuclearDisponible nuclearSpecC8
  cases hb : p.aplicarPlanNuclear with
  | false => simp
  | true =>
    simp only [Bool.not_true, Bool.false_eq_true, if_false, if_true]
    by_cases ht : p.anioObjetivo ≤ 2026
    · rw [if_pos ht]
      rw [max_eq_left (by linarith : p.anioObjetivo - 2026 ≤ 0), zero_div]
      norm_num
      exact hn
    · push_neg at ht
      rw [if_neg (by linarith : ¬p.anioObjetivo ≤ 2026)]
      rw [max_eq_right (by linarith : (0 : ℝ) ≤ p.anioObjetivo - 2026)]
      by_cases hct : p.cierreNuclear ≤ p.anioObjetivo
      · rw [if_pos hct]
        rcases hc with h27 | ⟨hle, hti⟩
        · rw [max_eq_right (by linarith : (2026 : ℝ) + 1 ≤ p.cierreNuclear),
            max_eq_right (by linarith : (1 : ℝ) ≤ p.cierreNuclear - 2026)]
          have hratio : 1 ≤ (p.anioObjetivo - 2026) / (p.cierreNuclear - 2026) :=
            (one_le_div (by linarith)).mpr (by linarith)
          rw [max_eq_left (by linarith : 1 - (p.anioObjetivo - 2026) / (p.cierreNuclear - 2026) ≤ 0),
            mul_zero]
          exact max_self 0
        · have ht27 : (2027 : ℝ) ≤ p.anioObjetivo := by
            rcases hti with h | h
            · linarith
            · exact h
          rw [max_eq_left (by linarith : p.cierreNuclear ≤ (2026 : ℝ) + 1)]
          have h1 : (2026 : ℝ) + 1 - 2026 = 1 := by norm_num
          rw [h1, max_self, div_one]
          rw [max_eq_left (by linarith : 1 - (p.anioObjetivo - 2026) ≤ 0), mul_zero]
          exact max_self 0
      · push_neg at hct
        rw [if_neg (by linarith : ¬p.cierreNuclear ≤ p.anioObjetivo)]
        rcases hc with h27 | ⟨hle, _⟩
        · rw [max_eq_right (by linarith : (2026 : ℝ) + 1 ≤ p.cierreNuclear),
            max_eq_right (by linarith : (1 : ℝ) ≤ p.cierreNuclear - 2026)]
          have hlt1 : (p.anioObjetivo - 2026) / (p.cierreNuclear - 2026) < 1 :=
            (div_lt_one (by linarith)).mpr (by linarith)
          rw [max_eq_right
            (by linarith : (0 : ℝ) ≤ 1 - (p.anioObjetivo - 2026) / (p.cierreNuclear - 2026))]
          exact max_eq_right (mul_nonneg hn (by linarith))
        · exact absurd (by linarith : p.cierreNuclear ≤ p.anioObjetivo) (by linarith)

/-- Witness for C8 at the default parameters (nuclear 7 GW, plan
active, decommission year 2035, target year 2030). -/
theorem C8_nuclear_rampa_witness :
    calcularNuclearDisponible PARAMS_DEFAULT = nuclearSpecC8 PARAMS_DEFAULT :=
  C8_nuclear_rampa PARAMS_DEFAULT (by norm_num [PARAMS_DEFAULT])
    (Or.inl (by norm_num [PARAMS_DEFAULT]))

/-! ### Characterization of the two dispatch branches -/

theorem despacho_pos (p : Params) (dia : ℕ) (dem gN gS gE bat bomb gasAnt : ℝ)
    (h : 0 < gN + gS + gE - dem) :
    despacho p dia dem gN gS gE bat bomb gasAnt =
      despachoExcedente p dem gN gS gE bat bomb := by
  unfold despacho
  exact if_pos h

theorem despacho_nonpos (p : Params) (dia : ℕ) (dem gN gS gE bat bomb gasAnt : ℝ)
    (h : ¬0 < gN + gS + gE - dem) :
    despacho p dia dem gN gS gE bat bomb gasAnt =
      despachoDeficit p dia dem gN gS gE bat bomb gasAnt := by
  unfold despacho
  exact if_neg h

theorem despachoExcedente_cargaBaterias (p : Params) (dem gN gS gE bat bomb : ℝ) :
    (despachoExcedente p dem gN gS gE bat bomb).gen.cargaBaterias =
      min (gN + gS + gE - dem)
        (min p.bateriasPotencia ((p.bateriasCapacidad - bat) / EFICIENCIA_BAT)) := rfl

theorem despachoExcedente_cargaBombeo (p : Params) (dem gN gS gE bat bomb : ℝ) :
    (despachoExcedente p dem gN gS gE bat bomb).gen.cargaBombeo =
      (if 0 < gN + gS + gE - dem -
             (despachoExcedente p dem gN gS gE bat bomb).gen.cargaBaterias then
        min (gN + gS + gE - dem -
             (despachoExcedente p dem gN gS gE bat bomb).gen.cargaBaterias)
          (min p.bombeo ((p.bombeoCapacidad - bomb) / EFICIENCIA_BOMBEO))
      else 0) := rfl

theorem despachoExcedente_flexUp (p : Params) (dem gN gS gE bat bomb : ℝ) :
    (despachoExcedente p dem gN gS gE bat bomb).flexUp =
      (if 0 < gN + gS + gE - dem -
             (despachoExcedente p dem gN gS gE bat bomb).gen.cargaBaterias -
             (despachoExcedente p dem gN gS gE bat bomb).gen.cargaBombeo ∧
          0 < min p.flexibilidadGW (dem * (p.flexibilidadPct / 100)) then
        min (gN + gS + gE - dem -
             (despachoExcedente p dem gN gS gE bat bomb).gen.cargaBaterias -
             (despachoExcedente p dem gN gS gE bat bomb).gen.cargaBombeo)
          (min p.flexibilidadGW (dem * (p.flexibilidadPct / 100)))
      else 0) := rfl

theorem despachoExcedente_exportacion (p : Params) (dem gN gS gE bat bomb : ℝ) :
    (despachoExcedente p dem gN gS gE bat bomb).gen.exportacion =
      (if 0 < gN + gS + gE - dem -
             (despachoExcedente p dem gN gS gE bat bomb).gen.cargaBaterias -
             (despachoExcedente p dem gN gS gE bat bomb).gen.cargaBombeo -
             (despachoExcedente p dem gN gS gE bat bomb).flexUp ∧
          0 < p.interconexion then
        min (gN + gS + gE - dem -
             (despachoExcedente p dem gN gS gE bat bomb).gen.cargaBaterias -
             (despachoExcedente p dem gN gS gE bat bomb).gen.cargaBombeo -
             (despachoExcedente p dem gN gS gE bat bomb).flexUp)
          p.interconexion
      else 0) := rfl

theorem despachoExcedente_vertido (p : Params) (dem gN gS gE bat bomb : ℝ) :
    (despachoExcedente p dem gN gS gE bat bomb).gen.vertido =
      max 0 (gN + gS + gE - dem -
        (despachoExcedente p dem gN gS gE bat bomb).gen.cargaBaterias -
        (despachoExcedente p dem gN gS gE bat bomb).gen.cargaBombeo -
        (despachoExcedente p dem gN gS gE bat bomb).flexUp -
        (despachoExcedente p dem gN gS gE bat bomb).gen.exportacion) := rfl

theorem despachoExcedente_bateria (p : Params) (dem gN gS gE bat bomb : ℝ) :
    (despachoExcedente p dem gN gS gE bat bomb).bateria =
      bat + (despachoExcedente p dem gN gS gE bat bomb).gen.cargaBaterias *
        EFICIENCIA_BAT := rfl

theorem despachoExcedente_bombeo (p : Params) (dem gN gS gE bat bomb : ℝ) :
    (despachoExcedente p dem gN gS gE bat bomb).bombeo =
      bomb + (despachoExcedente p dem gN gS gE bat bomb).gen.cargaBombeo *
        EFICIENCIA_BOMBEO := rfl

theorem despachoExcedente_ceros (p : Params) (dem gN gS gE bat bomb : ℝ) :
    (despachoExcedente p dem gN gS gE bat bomb).gen.hidraulica = 0 ∧
    (despachoExcedente p dem gN gS gE bat bomb).gen.gas = 0 ∧
    (despachoExcedente p dem gN gS gE bat bomb).gen.baterias = 0 ∧
    (despachoExcedente p dem gN gS gE bat bomb).gen.bombeo = 0 ∧
    (despachoExcedente p dem gN gS gE bat bomb).gen.importacion = 0 ∧
    (despachoExcedente p dem gN gS gE bat bomb).flexDown = 0 ∧
    (despachoExcedente p dem gN gS gE bat bomb).deficitFinal = 0 :=
  ⟨rfl, rfl, rfl, rfl, rfl, rfl, rfl⟩

theorem despachoDeficit_hidraulica (p : Params) (dia : ℕ) (dem gN gS gE bat bomb gasAnt : ℝ) :
    (despachoDeficit p dia dem gN gS gE bat bomb gasAnt).gen.hidraulica =
      min (p.hidraulica * calcularHidro p dia) (-(gN + gS + gE - dem)) := rfl

theorem despachoDeficit_baterias (p : Params) (dia : ℕ) (dem gN gS gE bat bomb gasAnt : ℝ) :
    (despachoDeficit p dia dem gN gS gE bat bomb gasAnt).gen.baterias =
      (if 0 < -(gN + gS + gE - dem) -
             (despachoDeficit p dia dem gN gS gE bat bomb gasAnt).gen.hidraulica ∧
          0 < bat then
        min p.bateriasPotencia (min bat (-(gN + gS + gE - dem) -
          (despachoDeficit p dia dem gN gS gE bat bomb gasAnt).gen.hidraulica))
      else 0) := rfl

theorem despachoDeficit_bombeoGen (p : Params) (dia : ℕ) (dem gN gS gE bat bomb gasAnt : ℝ) :
    (despachoDeficit p dia dem gN gS gE bat bomb gasAnt).gen.bombeo =
      (if 0 < -(gN + gS + gE - dem) -
             (despachoDeficit p dia dem gN gS gE bat bomb gasAnt).gen.hidraulica -
             (despachoDeficit p dia dem gN gS gE bat bomb gasAnt).gen.baterias ∧
          0 < bomb then
        min p.bombeo (min bomb (-(gN + gS + gE - dem) -
          (despachoDeficit p dia dem gN gS gE bat bomb gasAnt).gen.hidraulica -
          (despachoDeficit p dia dem gN gS gE bat bomb gasAnt).gen.baterias))
      else 0) := rfl

theorem despachoDeficit_flexDown (p : Params) (dia : ℕ) (dem gN gS gE bat bomb gasAnt : ℝ) :
    (despachoDeficit p dia dem gN gS gE bat bomb gasAnt).flexDown =
      (if 0 < -(gN + gS + gE - dem) -
             (despachoDeficit p dia dem gN gS gE bat bomb gasAnt).gen.hidraulica -
             (despachoDeficit p dia dem gN gS gE bat bomb gasAnt).gen.baterias -
             (despachoDeficit p dia dem gN gS gE bat bomb gasAnt).gen.bombeo ∧
          0 < min p.flexibilidadGW (dem * (p.flexibilidadPct / 100)) then
        min (-(gN + gS + gE - dem) -
             (despachoDeficit p dia dem gN gS gE bat bomb gasAnt).gen.hidraulica -
             (despachoDeficit p dia dem gN gS gE bat bomb gasAnt).gen.baterias -
             (despachoDeficit p dia dem gN gS gE bat bomb gasAnt).gen.bombeo)
          (min p.flexibilidadGW (dem * (p.flexibilidadPct / 100)))
      else 0) := rfl

theorem despachoDeficit_importacion (p : Params) (dia : ℕ) (dem gN gS gE bat bomb gasAnt : ℝ) :
    (despachoDeficit p dia dem gN gS gE bat bomb gasAnt).gen.importacion =
      (if 0 < -(gN + gS + gE - dem) -
             (despachoDeficit p dia dem gN gS gE bat bomb gasAnt).gen.hidraulica -
             (despachoDeficit p dia dem gN gS gE bat bomb gasAnt).gen.baterias -
             (despachoDeficit p dia dem gN gS gE bat bomb gasAnt).gen.bombeo -
             (despachoDeficit p dia dem gN gS gE bat bomb gasAnt).flexDown ∧
          0 < p.interconexion then
        min (-(gN + gS + gE - dem) -
             (despachoDeficit p dia dem gN gS gE bat bomb gasAnt).gen.hidraulica -
             (despachoDeficit p dia dem gN gS gE bat bomb gasAnt).gen.baterias -
             (despachoDeficit p dia dem gN gS gE bat bomb gasAnt).gen.bombeo -
             (despachoDeficit p dia dem gN gS gE bat bomb gasAnt).flexDown)
          p.interconexion
      else 0) := rfl

theorem despachoDeficit_gas (p : Params) (dia : ℕ) (dem gN gS gE bat bomb gasAnt : ℝ) :
    (despachoDeficit p dia dem gN gS gE bat bomb gasAnt).gen.gas =
      (if 0 < -(gN + gS + gE - dem) -
             (despachoDeficit p dia dem gN gS gE bat bomb gasAnt).gen.hidraulica -
             (despachoDeficit p dia dem gN gS gE bat bomb gasAnt).gen.baterias -
             (despachoDeficit p dia dem gN gS gE bat bomb gasAnt).gen.bombeo -
             (despachoDeficit p dia dem gN gS gE bat bomb gasAnt).flexDown -
             (despachoDeficit p dia dem gN gS gE bat bomb gasAnt).gen.importacion then
        min (-(gN + gS + gE - dem) -
             (despachoDeficit p dia dem gN gS gE bat bomb gasAnt).gen.hidraulica -
             (despachoDeficit p dia dem gN gS gE bat bomb gasAnt).gen.baterias -
             (despachoDeficit p dia dem gN gS gE bat bomb gasAnt).gen.bombeo -
             (despachoDeficit p dia dem gN gS gE bat bomb gasAnt).flexDown -
             (despachoDeficit p dia dem gN gS gE bat bomb gasAnt).gen.importacion)
          (min p.ccgt (p.ccgt * RAMPA_CCGT + gasAnt))
      else 0) := rfl

theorem despachoDeficit_deficitFinal (p : Params) (dia : ℕ) (dem gN gS gE bat bomb gasAnt : ℝ) :
    (despachoDeficit p dia dem gN gS gE bat bomb gasAnt).deficitFinal =
      -(gN + gS + gE - dem) -
        (despachoDeficit p dia dem gN gS gE bat bomb gasAnt).gen.hidraulica -
        (despachoDeficit p dia dem gN gS gE bat bomb gasAnt).gen.baterias -
        (despachoDeficit p dia dem gN gS gE bat bomb gasAnt).gen.bombeo -
        (despachoDeficit p dia dem gN gS gE bat bomb gasAnt).flexDown -
        (despachoDeficit p dia dem gN gS gE bat bomb gasAnt).gen.importacion -
        (despachoDeficit p dia dem gN gS gE bat bomb gasAnt).gen.gas := rfl

theorem despachoDeficit_bateria (p : Params) (dia : ℕ) (dem gN gS gE bat bomb gasAnt : ℝ) :
    (despachoDeficit p dia dem gN gS gE bat bomb gasAnt).bateria =
      bat - (despachoDeficit p dia dem gN gS gE bat bomb gasAnt).gen.baterias := rfl

theorem despachoDeficit_bombeo (p : Params) (dia : ℕ) (dem gN gS gE bat bomb gasAnt : ℝ) :
    (despachoDeficit p dia dem gN gS gE bat bomb gasAnt).bombeo =
      bomb - (despachoDeficit p dia dem gN gS gE bat bomb gasAnt).gen.bombeo := rfl

theorem despachoDeficit_ceros (p : Params) (dia : ℕ) (dem gN gS gE bat bomb gasAnt : ℝ) :
    (despachoDeficit p dia dem gN gS gE bat bomb gasAnt).gen.vertido = 0 ∧
    (despachoDeficit p dia dem gN gS gE bat bomb gasAnt).gen.cargaBaterias = 0 ∧
    (despachoDeficit p dia dem gN gS gE bat bomb gasAnt).gen.cargaBombeo = 0 ∧
    (despachoDeficit p dia dem gN gS gE bat bomb gasAnt).gen.exportacion = 0 ∧
    (despachoDeficit p dia dem gN gS gE bat bomb gasAnt).flexUp = 0 :=
  ⟨rfl, rfl, rfl, rfl, rfl⟩

theorem despachoExcedente_cotas (p : Params) (dem gN gS gE bat bomb : ℝ) :
    (despachoExcedente p dem gN gS gE bat bomb).gen.cargaBaterias ≤
        gN + gS + gE - dem ∧
    (despachoExcedente p dem gN gS gE bat bomb).gen.cargaBombeo ≤
        gN + gS + gE - dem -
          (despachoExcedente p dem gN gS gE bat bomb).gen.cargaBaterias ∧
    (despachoExcedente p dem gN gS gE bat bomb).flexUp ≤
        gN + gS + gE - dem -
          (despachoExcedente p dem gN gS gE bat bomb).gen.cargaBaterias -
          (despachoExcedente p dem gN gS gE bat bomb).gen.cargaBombeo ∧
    (despachoExcedente p dem gN gS gE bat bomb).gen.exportacion ≤
        gN + gS + gE - dem -
          (despachoExcedente p dem gN gS gE bat bomb).gen.cargaBaterias -
          (despachoExcedente p dem gN gS gE bat bomb).gen.cargaBombeo -
          (despachoExcedente p dem gN gS gE bat bomb).flexUp := by
  have h1 : (despachoExcedente p dem gN gS gE bat bomb).gen.cargaBaterias ≤
      gN + gS + gE - dem := by
    rw [despachoExcedente_cargaBaterias]; exact min_le_left _ _
  have h2 : (despachoExcedente p dem gN gS gE bat bomb).gen.cargaBombeo ≤
      gN + gS + gE - dem -
        (despachoExcedente p dem gN gS gE bat bomb).gen.cargaBaterias := by
    rw [despachoExcedente_cargaBombeo]; split_ifs with hc
    · exact min_le_left _ _
    · linarith [not_lt.mp hc]
  have h3 : (despachoExcedente p dem gN gS gE bat bomb).flexUp ≤
      gN + gS + gE - dem -
        (despachoExcedente p dem gN gS gE bat bomb).gen.cargaBaterias -
        (despachoExcedente p dem gN gS gE bat bomb).gen.cargaBombeo := by
    rw [despachoExcedente_flexUp]; split_ifs with hc
    · exact min_le_left _ _
    · linarith
  have h4 : (despachoExcedente p dem gN gS gE bat bomb).gen.exportacion ≤
      gN + gS + gE - dem -
        (despachoExcedente p dem gN gS gE bat bomb).gen.cargaBaterias -
        (despachoExcedente p dem gN gS gE bat bomb).gen.cargaBombeo -
        (despachoExcedente p dem gN gS gE bat bomb).flexUp := by
    rw [despachoExcedente_exportacion]; split_ifs with hc
    · exact min_le_left _ _
    · linarith
  exact ⟨h1, h2, h3, h4⟩

theorem despachoDeficit_cotas (p : Params) (dia : ℕ) (dem gN gS gE bat bomb gasAnt : ℝ) :
    (despachoDeficit p dia dem gN gS gE bat bomb gasAnt).gen.hidraulica ≤
        -(gN + gS + gE - dem) ∧
    (despachoDeficit p dia dem gN gS gE bat bomb gasAnt).gen.baterias ≤
        -(gN + gS + gE - dem) -
          (despachoDeficit p dia dem gN gS gE bat bomb gasAnt).gen.hidraulica ∧
    (despachoDeficit p dia dem gN gS gE bat bomb gasAnt).gen.bombeo ≤
        -(gN + gS + gE - dem) -
          (despachoDeficit p dia dem gN gS gE bat bomb gasAnt).gen.hidraulica -
          (despachoDeficit p dia dem gN gS gE bat bomb gasAnt).gen.baterias ∧
    (despachoDeficit p dia dem gN gS gE bat bomb gasAnt).flexDown ≤
        -(gN + gS + gE - dem) -
          (despachoDeficit p dia dem gN gS gE bat bomb gasAnt).gen.hidraulica -
          (despachoDeficit p dia dem gN gS gE bat bomb gasAnt).gen.baterias -
          (despachoDeficit p dia dem gN gS gE bat bomb gasAnt).gen.bombeo ∧
    (despachoDeficit p dia dem gN gS gE bat bomb gasAnt).gen.importacion ≤
        -(gN + gS + gE - dem) -
          (despachoDeficit p dia dem gN gS gE bat bomb gasAnt).gen.hidraulica -
          (despachoDeficit p dia dem gN gS gE bat bomb gasAnt).gen.baterias -
          (despachoDeficit p dia dem gN gS gE bat bomb gasAnt).gen.bombeo -
          (despachoDeficit p dia dem gN gS gE bat bomb gasAnt).flexDown ∧
    (despachoDeficit p dia dem gN gS gE bat bomb gasAnt).gen.gas ≤
        -(gN + gS + gE - dem) -
          (despachoDeficit p dia dem gN gS gE bat bomb gasAnt).gen.hidraulica -
          (despachoDeficit p dia dem gN gS gE bat bomb gasAnt).gen.baterias -
          (despachoDeficit p dia dem gN gS gE bat bomb gasAnt).gen.bombeo -
          (despachoDeficit p dia dem gN gS gE bat bomb gasAnt).flexDown -
          (despachoDeficit p dia dem gN gS gE bat bomb gasAnt).gen.importacion ∧
    0 ≤ (despachoDeficit p dia dem gN gS gE bat bomb gasAnt).deficitFinal ∧
    0 ≤ (despachoDeficit p dia dem gN gS gE bat bomb gasAnt).flexDown := by
  have h1 : (despachoDeficit p dia dem gN gS gE bat bomb gasAnt).gen.hidraulica ≤
      -(gN + gS + gE - dem) := by
    rw [despachoDeficit_hidraulica]; exact min_le_right _ _
  have h2 : (despachoDeficit p dia dem gN gS gE bat bomb gasAnt).gen.baterias ≤
      -(gN + gS + gE - dem) -
        (despachoDeficit p dia dem gN gS gE bat bomb gasAnt).gen.hidraulica := by
    rw [despachoDeficit_baterias]; split_ifs with hc
    · exact le_trans (min_le_right _ _) (min_le_right _ _)
    · linarith
  have h3 : (despachoDeficit p dia dem gN gS gE bat bomb gasAnt).gen.bombeo ≤
      -(gN + gS + gE - dem) -
        (despachoDeficit p dia dem gN gS gE bat bomb gasAnt).gen.hidraulica -
        (despachoDeficit p dia dem gN gS gE bat bomb gasAnt).gen.baterias := by
    rw [despachoDeficit_bombeoGen]; split_ifs with hc
    · exact le_trans (min_le_right _ _) (min_le_right _ _)
    · linarith
  have h4 : (despachoDeficit p dia dem gN gS gE bat bomb gasAnt).flexDown ≤
      -(gN + gS + gE - dem) -
        (despachoDeficit p dia dem gN gS gE bat bomb gasAnt).gen.hidraulica -
        (despachoDeficit p dia dem gN gS gE bat bomb gasAnt).gen.baterias -
        (despachoDeficit p dia dem gN gS gE bat bomb gasAnt).gen.bombeo := by
    rw [despachoDeficit_flexDown]; split_ifs with hc
    · exact min_le_left _ _
    · linarith
  have h5 : (despachoDeficit p dia dem gN gS gE bat bomb gasAnt).gen.importacion ≤
      -(gN + gS + gE - dem) -
        (despachoDeficit p dia dem gN gS gE bat bomb gasAnt).gen.hidraulica -
        (despachoDeficit p dia dem gN gS gE bat bomb gasAnt).gen.baterias -
        (despachoDeficit p dia dem gN gS gE bat bomb gasAnt).gen.bombeo -
        (despachoDeficit p dia dem gN gS gE bat bomb gasAnt).flexDown := by
    rw [despachoDeficit_importacion]; split_ifs with hc
    · exact min_le_left _ _
    · linarith
  have h6 : (despachoDeficit p dia dem gN gS gE bat bomb gasAnt).gen.gas ≤
      -(gN + gS + gE - dem) -
        (despachoDeficit p dia dem gN gS gE bat bomb gasAnt).gen.hidraulica -
        (despachoDeficit p dia dem gN gS gE bat bomb gasAnt).gen.baterias -
        (despachoDeficit p dia dem gN gS gE bat bomb gasAnt).gen.bombeo -
        (despachoDeficit p dia dem gN gS gE bat bomb gasAnt).flexDown -
        (despachoDeficit p dia dem gN gS gE bat bomb gasAnt).gen.importacion := by
    rw [despachoDeficit_gas]; split_ifs with hc
    · exact min_le_left _ _
    · linarith
  have h7 : 0 ≤ (despachoDeficit p dia dem gN gS gE bat bomb gasAnt).deficitFinal := by
    rw [despachoDeficit_deficitFinal]; linarith
  have h8 : 0 ≤ (despachoDeficit p dia dem gN gS gE bat bomb gasAnt).flexDown := by
    rw [despachoDeficit_flexDown]; split_ifs with hc
    · exact le_min hc.1.le hc.2.le
    · exact le_refl 0
  exact ⟨h1, h2, h3, h4, h5, h6, h7, h8⟩

/-! ### C2: hourly energy balance -/

/-- C2 (amended): the per-hour energy balance holds exactly (hence
within the 1e-6 GW tolerance) once the unserved deficit remainder is
included: in the surplus branch base generation equals demand plus
battery charge, pumped charge, flex-up, export and curtailment; in the
deficit branch demand equals base generation plus hydro, battery
discharge, pumped discharge, flex-down, import, gas and the unserved
deficit remainder. -/
theorem C2_balance_energia :
    ∀ (p : Params) (dia : ℕ) (dem gN gS gE bat bomb gasAnt : ℝ),
      (dem < gN + gS + gE →
        gN + gS + gE = dem +
          (despacho p dia dem gN gS gE bat bomb gasAnt).gen.cargaBaterias +
          (despacho p dia dem gN gS gE bat bomb gasAnt).gen.cargaBombeo +
          (despacho p dia dem gN gS gE bat bomb gasAnt).flexUp +
          (despacho p dia dem gN gS gE bat bomb gasAnt).gen.exportacion +
          (despacho p dia dem gN gS gE bat bomb gasAnt).gen.vertido) ∧
      (gN + gS + gE ≤ dem →
        dem = (gN + gS + gE) +
          (despacho p dia dem gN gS gE bat bomb gasAnt).gen.hidraulica +
          (despacho p dia dem gN gS gE bat bomb gasAnt).gen.baterias +
          (despacho p dia dem gN gS gE bat bomb gasAnt).gen.bombeo +
          (despacho p dia dem gN gS gE bat bomb gasAnt).flexDown +
          (despacho p dia dem gN gS gE bat bomb gasAnt).gen.importacion +
          (despacho p dia dem gN gS gE bat bomb gasAnt).gen.gas +
          (despacho p dia dem gN gS gE bat bomb gasAnt).deficitFinal) := by
  intro p dia dem gN gS gE bat bomb gasAnt
  constructor
  · intro hlt
    rw [despacho_pos p dia dem gN gS gE bat bomb gasAnt (by linarith)]
    obtain ⟨h1, h2, h3, h4⟩ := despachoExcedente_cotas p dem gN gS gE bat bomb
    have hvert := despachoExcedente_vertido p dem gN gS gE bat bomb
    rw [max_eq_right (by linarith)] at hvert
    linarith
  · intro hle
    rw [despacho_nonpos p dia dem gN gS gE bat bomb gasAnt (by linarith)]
    have hdf := despachoDeficit_deficitFinal p dia dem gN gS gE bat bomb gasAnt
    linarith

/-- C2 counterexample: with no dispatchable resources at all and a
10 GW demand, the deficit-branch balance as the claim states it (demand
equal to base generation plus the listed flows only, within 1e-6 GW)
fails: all listed flows are 0 while demand is 10 GW, the difference
being the unserved deficit. -/
theorem C2_balance_energia_cx :
    ¬|(10 : ℝ) - ((0 + 0 + 0) +
        (despacho paramsCero 0 10 0 0 0 0 0 0).gen.hidraulica +
        (despacho paramsCero 0 10 0 0 0 0 0 0).gen.baterias +
        (despacho paramsCero 0 10 0 0 0 0 0 0).gen.bombeo +
        (despacho paramsCero 0 10 0 0 0 0 0 0).flexDown +
        (despacho paramsCero 0 10 0 0 0 0 0 0).gen.importacion +
        (despacho paramsCero 0 10 0 0 0 0 0 0).gen.gas)| ≤ 1e-6 := by
  have hd : despacho paramsCero 0 10 0 0 0 0 0 0 =
      despachoDeficit paramsCero 0 10 0 0 0 0 0 0 :=
    despacho_nonpos _ _ _ _ _ _ _ _ _ (by norm_num)
  rw [hd]
  have e1 : (despachoDeficit paramsCero 0 10 0 0 0 0 0 0).gen.hidraulica = 0 := by
    rw [despachoDeficit_hidraulica]
    norm_num [paramsCero, min_def]
  have e2 : (despachoDeficit paramsCero 0 10 0 0 0 0 0 0).gen.baterias = 0 := by
    rw [despachoDeficit_baterias]
    norm_num
  have e3 : (despachoDeficit paramsCero 0 10 0 0 0 0 0 0).gen.bombeo = 0 := by
    rw [despachoDeficit_bombeoGen]
    norm_num
  have e4 : (despachoDeficit paramsCero 0 10 0 0 0 0 0 0).flexDown = 0 := by
    rw [despachoDeficit_flexDown]
    norm_num [paramsCero, min_def]
  have e5 : (despachoDeficit paramsCero 0 10 0 0 0 0 0 0).gen.importacion = 0 := by
    rw [despachoDeficit_importacion]
    norm_num [paramsCero]
  have e6 : (despachoDeficit paramsCero 0 10 0 0 0 0 0 0).gen.gas = 0 := by
    rw [despachoDeficit_gas, e1, e2, e3, e4, e5]
    norm_num [paramsCero, RAMPA_CCGT, min_def]
  rw [e1, e2, e3, e4, e5, e6]
  norm_num

/-! ### C10: the deficit seen by price formation -/

/-- C10: the deficit handed to price formation,
`max(0, demand - base - hydro - battery - pumped - gas - import)`,
equals the unserved deficit remaining after gas dispatch plus the
hour's flexible-demand reduction; in surplus hours it is 0; and it
strictly exceeds the deficit tracked for the KPI counters exactly when
flexible-demand reduction was applied that hour. -/
theorem C10_deficit_contexto :
    ∀ (p : Params) (dia : ℕ) (dem gN gS gE bat bomb gasAnt : ℝ),
      max 0 (dem - (gN + gS + gE) -
          (despacho p dia dem gN gS gE bat bomb gasAnt).gen.hidraulica -
          (despacho p dia dem gN gS gE bat bomb gasAnt).gen.baterias -
          (despacho p dia dem gN gS gE bat bomb gasAnt).gen.bombeo -
          (despacho p dia dem gN gS gE bat bomb gasAnt).gen.gas -
          (despacho p dia dem gN gS gE bat bomb gasAnt).gen.importacion) =
        (despacho p dia dem gN gS gE bat bomb gasAnt).deficitFinal +
          (despacho p dia dem gN gS gE bat bomb gasAnt).flexDown ∧
      (dem < gN + gS + gE →
        max 0 (dem - (gN + gS + gE) -
          (despacho p dia dem gN gS gE bat bomb gasAnt).gen.hidraulica -
          (despacho p dia dem gN gS gE bat bomb gasAnt).gen.baterias -
          (despacho p dia dem gN gS gE bat bomb gasAnt).gen.bombeo -
          (despacho p dia dem gN gS gE bat bomb gasAnt).gen.gas -
          (despacho p dia dem gN gS gE bat bomb gasAnt).gen.importacion) = 0) ∧
      ((despacho p dia dem gN gS gE bat bomb gasAnt).deficitFinal <
          max 0 (dem - (gN + gS + gE) -
            (despacho p dia dem gN gS gE bat bomb gasAnt).gen.hidraulica -
            (despacho p dia dem gN gS gE bat bomb gasAnt).gen.baterias -
            (despacho p dia dem gN gS gE bat bomb gasAnt).gen.bombeo -
            (despacho p dia dem gN gS gE bat bomb gasAnt).gen.gas -
            (despacho p dia dem gN gS gE bat bomb gasAnt).gen.importacion) ↔
        0 < (despacho p dia dem gN gS gE bat bomb gasAnt).flexDown) := by
  intro p dia dem gN gS gE bat bomb gasAnt
  by_cases hbr : 0 < gN + gS + gE - dem
  · rw [despacho_pos p dia dem gN gS gE bat bomb gasAnt hbr]
    obtain ⟨hz1, hz2, hz3, hz4, hz5, hz6, hz7⟩ :=
      despachoExcedente_ceros p dem gN gS gE bat bomb
    rw [hz1, hz2, hz3, hz4, hz5, hz6, hz7]
    have hmax : max 0 (dem - (gN + gS + gE) - 0 - 0 - 0 - 0 - 0) = 0 :=
      max_eq_left (by linarith)
    rw [hmax]
    exact ⟨by norm_num, fun _ => rfl, by constructor <;> (intro hx; linarith)⟩
  · rw [despacho_nonpos p dia dem gN gS gE bat bomb gasAnt hbr]
    obtain ⟨c1, c2, c3, c4, c5, c6, c7, c8⟩ :=
      despachoDeficit_cotas p dia dem gN gS gE bat bomb gasAnt
    have hdf := despachoDeficit_deficitFinal p dia dem gN gS gE bat bomb gasAnt
    have hins : dem - (gN + gS + gE) -
        (despachoDeficit p dia dem gN gS gE bat bomb gasAnt).gen.hidraulica -
        (despachoDeficit p dia dem gN gS gE bat bomb gasAnt).gen.baterias -
        (despachoDeficit p dia dem gN gS gE bat bomb gasAnt).gen.bombeo -
        (despachoDeficit p dia dem gN gS gE bat bomb gasAnt).gen.gas -
        (despachoDeficit p dia dem gN gS gE bat bomb gasAnt).gen.importacion =
        (despachoDeficit p dia dem gN gS gE bat bomb gasAnt).deficitFinal +
          (despachoDeficit p dia dem gN gS gE bat bomb gasAnt).flexDown := by
      linarith
    rw [hins, max_eq_right (by linarith)]
    refine ⟨rfl, fun hlt => absurd hlt (not_lt.mpr (by linarith [not_lt.mp hbr])), ?_⟩
    constructor <;> (intro hx; linarith)

/-! ### C3: storage stays within its bounds -/

theorem despachoExcedente_almacen (p : Params) (dem gN gS gE bat bomb : ℝ)
    (hbr : 0 < gN + gS + gE - dem)
    (hbp : 0 ≤ p.bateriasPotencia) (hpp : 0 ≤ p.bombeo)
    (hok : almacenOK p bat bomb) :
    almacenOK p (despachoExcedente p dem gN gS gE bat bomb).bateria
      (despachoExcedente p dem gN gS gE bat bomb).bombeo := by
  obtain ⟨hb0, hb1, ho0, ho1⟩ := hok
  obtain ⟨hc1, hc2, hc3, hc4⟩ := despachoExcedente_cotas p dem gN gS gE bat bomb
  have hcb0 : 0 ≤ (despachoExcedente p dem gN gS gE bat bomb).gen.cargaBaterias := by
    rw [despachoExcedente_cargaBaterias]
    exact le_min hbr.le (le_min hbp (div_nonneg (by linarith) (by norm_num [EFICIENCIA_BAT])))
  have hcbE : (despachoExcedente p dem gN gS gE bat bomb).gen.cargaBaterias ≤
      (p.bateriasCapacidad - bat) / EFICIENCIA_BAT := by
    rw [despachoExcedente_cargaBaterias]
    exact (min_le_right _ _).trans (min_le_right _ _)
  have hcbb0 : 0 ≤ (despachoExcedente p dem gN gS gE bat bomb).gen.cargaBombeo := by
    rw [despachoExcedente_cargaBombeo]
    split_ifs with hc
    · exact le_min hc.le
        (le_min hpp (div_nonneg (by linarith) (by norm_num [EFICIENCIA_BOMBEO])))
    · exact le_refl 0
  have hcbbE : (despachoExcedente p dem gN gS gE bat bomb).gen.cargaBombeo ≤
      (p.bombeoCapacidad - bomb) / EFICIENCIA_BOMBEO := by
    rw [despachoExcedente_cargaBombeo]
    split_ifs with hc
    · exact (min_le_right _ _).trans (min_le_right _ _)
    · exact div_nonneg (by linarith) (by norm_num [EFICIENCIA_BOMBEO])
  have hmulB : (despachoExcedente p dem gN gS gE bat bomb).gen.cargaBaterias *
      EFICIENCIA_BAT ≤ p.bateriasCapacidad - bat :=
    (le_div_iff₀ (by norm_num [EFICIENCIA_BAT])).mp hcbE
  have hmulP : (despachoExcedente p dem gN gS gE bat bomb).gen.cargaBombeo *
      EFICIENCIA_BOMBEO ≤ p.bombeoCapacidad - bomb :=
    (le_div_iff₀ (by norm_num [EFICIENCIA_BOMBEO])).mp hcbbE
  rw [almacenOK, despachoExcedente_bateria, despachoExcedente_bombeo]
  refine ⟨add_nonneg hb0 (mul_nonneg hcb0 (by norm_num [EFICIENCIA_BAT])), by linarith,
    add_nonneg ho0 (mul_nonneg hcbb0 (by norm_num [EFICIENCIA_BOMBEO])), by linarith⟩

theorem despachoDeficit_almacen (p : Params) (dia : ℕ) (dem gN gS gE bat bomb gasAnt : ℝ)
    (hbp : 0 ≤ p.bateriasPotencia) (hpp : 0 ≤ p.bombeo)
    (hok : almacenOK p bat bomb) :
    almacenOK p (despachoDeficit p dia dem gN gS gE bat bomb gasAnt).bateria
      (despachoDeficit p dia dem gN gS gE bat bomb gasAnt).bombeo := by
  obtain ⟨hb0, hb1, ho0, ho1⟩ := hok
  have hdb0 : 0 ≤ (despachoDeficit p dia dem gN gS gE bat bomb gasAnt).gen.baterias := by
    rw [despachoDeficit_baterias]
    split_ifs with hc
    · exact le_min hbp (le_min hc.2.le hc.1.le)
    · exact le_refl 0
  have hdbB : (despachoDeficit p dia dem gN gS gE bat bomb gasAnt).gen.baterias ≤ bat := by
    rw [despachoDeficit_baterias]
    split_ifs with hc
    · exact (min_le_right _ _).trans (min_le_left _ _)
    · exact hb0
  have hdo0 : 0 ≤ (despachoDeficit p dia dem gN gS gE bat bomb gasAnt).gen.bombeo := by
    rw [despachoDeficit_bombeoGen]
    split_ifs with hc
    · exact le_min hpp (le_min hc.2.le hc.1.le)
    · exact le_refl 0
  have hdoB : (despachoDeficit p dia dem gN gS gE bat bomb gasAnt).gen.bombeo ≤ bomb := by
    rw [despachoDeficit_bombeoGen]
    split_ifs with hc
    · exact (min_le_right _ _).trans (min_le_left _ _)
    · exact ho0
  rw [almacenOK, despachoDeficit_bateria, despachoDeficit_bombeo]
  exact ⟨by linarith, by linarith, by linarith, by linarith⟩

theorem despacho_almacen (p : Params) (dia : ℕ) (dem gN gS gE bat bomb gasAnt : ℝ)
    (hbp : 0 ≤ p.bateriasPotencia) (hpp : 0 ≤ p.bombeo)
    (hok : almacenOK p bat bomb) :
    almacenOK p (despacho p dia dem gN gS gE bat bomb gasAnt).bateria
      (despacho p dia dem gN gS gE bat bomb gasAnt).bombeo := by
  by_cases hbr : 0 < gN + gS + gE - dem
  · rw [despacho_pos p dia dem gN gS gE bat bomb gasAnt hbr]
    exact despachoExcedente_almacen p dem gN gS gE bat bomb hbr hbp hpp hok
  · rw [despacho_nonpos p dia dem gN gS gE bat bomb gasAnt hbr]
    exact despachoDeficit_almacen p dia dem gN gS gE bat bomb gasAnt hbp hpp hok

theorem pasoHora_almacen (p : Params) (n m : ℝ) (sv sd : List ℝ) (st : Estado) (h : ℕ)
    (hbp : 0 ≤ p.bateriasPotencia) (hpp : 0 ≤ p.bombeo)
    (hok : almacenOK p st.bateria st.bombeo) :
    almacenOK p (pasoHora p n m sv sd st h).bateria (pasoHora p n m sv sd st h).bombeo := by
  rw [pasoHora_bateria, pasoHora_bombeo]
  have hda : almacenOK p (despachoHora p n m sv sd st h).bateria
      (despachoHora p n m sv sd st h).bombeo :=
    despacho_almacen p (h / 24) (m * sd.getD h 0) (n * FC_NUCLEAR)
      (p.solar * calcularSolar (h / 24) (h % 24) (0.65 + (st.rngMeteo.next).1 * 0.35))
      (p.eolica * sv.getD h 0) st.bateria st.bombeo st.gasAnterior hbp hpp hok
  obtain ⟨a1, a2, a3, a4⟩ := hda
  exact ⟨mul_nonneg a1 (by norm_num [AUTODESCARGA_BAT]),
    le_trans (mul_le_of_le_one_right a1 (by norm_num [AUTODESCARGA_BAT])) a2, a3, a4⟩

/-- C3: with non-negative storage capacities and power limits, both
storage levels stay in `[0, capacity]` at every hour of the dispatch
loop (every state `estadoParcial` reaches from the initial
half-capacity levels, i.e. after charge or discharge and the hourly
battery self-discharge), and one dispatch step preserves the invariant
from any in-range levels. -/
theorem C3_almacenamiento (p : Params)
    (hbp : 0 ≤ p.bateriasPotencia) (hbc : 0 ≤ p.bateriasCapacidad)
    (hpp : 0 ≤ p.bombeo) (hpc : 0 ≤ p.bombeoCapacidad) :
    (∀ (s1 s2 s3 : ℝ) (n : ℕ),
      almacenOK p (estadoParcial p s1 s2 s3 n).bateria
        (estadoParcial p s1 s2 s3 n).bombeo) ∧
    ∀ (dia : ℕ) (dem gN gS gE bat bomb gasAnt : ℝ), almacenOK p bat bomb →
      almacenOK p (despacho p dia dem gN gS gE bat bomb gasAnt).bateria
        (despacho p dia dem gN gS gE bat bomb gasAnt).bombeo := by
  constructor
  · intro s1 s2 s3 n
    induction n with
    | zero =>
      rw [estadoParcial_zero]
      have hb : (estadoInicial p ⟨s3⟩).bateria = p.bateriasCapacidad * 0.5 := rfl
      have ho : (estadoInicial p ⟨s3⟩).bombeo = p.bombeoCapacidad * 0.5 := rfl
      rw [almacenOK, hb, ho]
      exact ⟨mul_nonneg hbc (by norm_num), by linarith,
        mul_nonneg hpc (by norm_num), by linarith⟩
    | succ n ih =>
      rw [estadoParcial_succ]
      exact pasoHora_almacen p _ _ _ _ _ n hbp hpp ih
  · intro dia dem gN gS gE bat bomb gasAnt hok
    exact despacho_almacen p dia dem gN gS gE bat bomb gasAnt hbp hpp hok

/-- Witness for C3 at the default parameters (battery 3 GW / 10 GWh,
pumped storage 3.5 GW / 30 GWh). -/
theorem C3_almacenamiento_witness :
    (∀ (s1 s2 s3 : ℝ) (n : ℕ),
      almacenOK PARAMS_DEFAULT (estadoParcial PARAMS_DEFAULT s1 s2 s3 n).bateria
        (estadoParcial PARAMS_DEFAULT s1 s2 s3 n).bombeo) ∧
    ∀ (dia : ℕ) (dem gN gS gE bat bomb gasAnt : ℝ), almacenOK PARAMS_DEFAULT bat bomb →
      almacenOK PARAMS_DEFAULT
        (despacho PARAMS_DEFAULT dia dem gN gS gE bat bomb gasAnt).bateria
        (despacho PARAMS_DEFAULT dia dem gN gS gE bat bomb gasAnt).bombeo :=
  C3_almacenamiento PARAMS_DEFAULT (by norm_num [PARAMS_DEFAULT])
    (by norm_num [PARAMS_DEFAULT]) (by norm_num [PARAMS_DEFAULT])
    (by norm_num [PARAMS_DEFAULT])

/-! ### C5: the gas ramp constraint -/

theorem despachoHora_def (p : Params) (n m : ℝ) (sv sd : List ℝ) (st : Estado) (h : ℕ) :
    despachoHora p n m sv sd st h =
      despacho p (h / 24) (m * sd.getD h 0) (n * FC_NUCLEAR)
        (p.solar * calcularSolar (h / 24) (h % 24) (0.65 + (st.rngMeteo.next).1 * 0.35))
        (p.eolica * sv.getD h 0) st.bateria st.bombeo st.gasAnterior := rfl

theorem despacho_gas_cotas (p : Params) (dia : ℕ) (dem gN gS gE bat bomb gasAnt : ℝ)
    (hcc : 0 ≤ p.ccgt) (hga : 0 ≤ gasAnt) :
    0 ≤ (despacho p dia dem gN gS gE bat bomb gasAnt).gen.gas ∧
    (despacho p dia dem gN gS gE bat bomb gasAnt).gen.gas ≤ p.ccgt ∧
    (despacho p dia dem gN gS gE bat bomb gasAnt).gen.gas ≤
      gasAnt + p.ccgt * RAMPA_CCGT := by
  have hra : 0 ≤ p.ccgt * RAMPA_CCGT + gasAnt :=
    add_nonneg (mul_nonneg hcc (by norm_num [RAMPA_CCGT])) hga
  by_cases hbr : 0 < gN + gS + gE - dem
  · rw [despacho_pos p dia dem gN gS gE bat bomb gasAnt hbr,
      (despachoExcedente_ceros p dem gN gS gE bat bomb).2.1]
    exact ⟨le_refl 0, hcc, by linarith⟩
  · rw [despacho_nonpos p dia dem gN gS gE bat bomb gasAnt hbr, despachoDeficit_gas]
    split_ifs with hc
    · exact ⟨le_min hc.le (le_min hcc hra),
        (min_le_right _ _).trans (min_le_left _ _),
        le_trans ((min_le_right _ _).trans (min_le_right _ _)) (by linarith)⟩
    · exact ⟨le_refl 0, hcc, by linarith⟩

theorem gas_mix_invariante (p : Params) (hcc : 0 ≤ p.ccgt) (s1 s2 s3 : ℝ) :
    ∀ n : ℕ,
      (estadoParcial p s1 s2 s3 n).mix.length = n ∧
      0 ≤ (estadoParcial p s1 s2 s3 n).gasAnterior ∧
      ((estadoParcial p s1 s2 s3 n).gasAnterior =
        if n = 0 then 0
        else ((estadoParcial p s1 s2 s3 n).mix.getD (n - 1) Gen.cero).gas) ∧
      ∀ h : ℕ, h < n →
        0 ≤ ((estadoParcial p s1 s2 s3 n).mix.getD h Gen.cero).gas ∧
        ((estadoParcial p s1 s2 s3 n).mix.getD h Gen.cero).gas ≤ p.ccgt ∧
        ((estadoParcial p s1 s2 s3 n).mix.getD h Gen.cero).gas ≤
          (if h = 0 then 0
           else ((estadoParcial p s1 s2 s3 n).mix.getD (h - 1) Gen.cero).gas) +
            p.ccgt * RAMPA_CCGT := by
  intro n
  induction n with
  | zero =>
    rw [estadoParcial_zero]
    refine ⟨rfl, le_refl 0, ?_, fun h hh => absurd hh (Nat.not_lt_zero h)⟩
    rw [if_pos rfl]
    rfl
  | succ n ih =>
    obtain ⟨ihlen, ihga0, ihgaeq, ihall⟩ := ih
    rw [estadoParcial_succ]
    have hgascotas :
        0 ≤ (despachoHora p (calcularNuclearDisponible p)
            (calcularDemandaAjustada p * 1000 / (HORAS_ANUALES : ℝ))
            (generarSerieViento ⟨s1⟩) (generarSerieDemanda ⟨s2⟩)
            (estadoParcial p s1 s2 s3 n) n).gen.gas ∧
          (despachoHora p (calcularNuclearDisponible p)
            (calcularDemandaAjustada p * 1000 / (HORAS_ANUALES : ℝ))
            (generarSerieViento ⟨s1⟩) (generarSerieDemanda ⟨s2⟩)
            (estadoParcial p s1 s2 s3 n) n).gen.gas ≤ p.ccgt ∧
          (despachoHora p (calcularNuclearDisponible p)
            (calcularDemandaAjustada p * 1000 / (HORAS_ANUALES : ℝ))
            (generarSerieViento ⟨s1⟩) (generarSerieDemanda ⟨s2⟩)
            (estadoParcial p s1 s2 s3 n) n).gen.gas ≤
            (estadoParcial p s1 s2 s3 n).gasAnterior + p.ccgt * RAMPA_CCGT := by
      rw [despachoHora_def]
      exact despacho_gas_cotas p _ _ _ _ _ _ _ _ hcc ihga0
    obtain ⟨hg0, hgc, hgr⟩ := hgascotas
    have hlen' : (pasoHora p (calcularNuclearDisponible p)
        (calcularDemandaAjustada p * 1000 / (HORAS_ANUALES : ℝ))
        (generarSerieViento ⟨s1⟩) (generarSerieDemanda ⟨s2⟩)
        (estadoParcial p s1 s2 s3 n) n).mix.length = n + 1 := by
      rw [pasoHora_mix, List.length_append, ihlen]; rfl
    have hnth : (pasoHora p (calcularNuclearDisponible p)
        (calcularDemandaAjustada p * 1000 / (HORAS_ANUALES : ℝ))
        (generarSerieViento ⟨s1⟩) (generarSerieDemanda ⟨s2⟩)
        (estadoParcial p s1 s2 s3 n) n).mix.getD n Gen.cero =
        (despachoHora p (calcularNuclearDisponible p)
          (calcularDemandaAjustada p * 1000 / (HORAS_ANUALES : ℝ))
          (generarSerieViento ⟨s1⟩) (generarSerieDemanda ⟨s2⟩)
          (estadoParcial p s1 s2 s3 n) n).gen := by
      rw [pasoHora_mix, List.getD_append_right _ _ _ _ (le_of_eq ihlen), ihlen]
      simp
    have hprev : ∀ k : ℕ, k < n →
        (pasoHora p (calcularNuclearDisponible p)
          (calcularDemandaAjustada p * 1000 / (HORAS_ANUALES : ℝ))
          (generarSerieViento ⟨s1⟩) (generarSerieDemanda ⟨s2⟩)
          (estadoParcial p s1 s2 s3 n) n).mix.getD k Gen.cero =
          (estadoParcial p s1 s2 s3 n).mix.getD k Gen.cero := by
      intro k hk
      rw [pasoHora_mix, List.getD_append _ _ _ _ (by rw [ihlen]; exact hk)]
    refine ⟨hlen', ?_, ?_, ?_⟩
    · rw [pasoHora_gasAnterior]; exact hg0
    · rw [pasoHora_gasAnterior, if_neg (Nat.succ_ne_zero n), Nat.add_sub_cancel, hnth]
    · intro h hh
      rcases Nat.lt_succ_iff_lt_or_eq.mp hh with hlt | heq
      · have hm := hprev h hlt
        rw [hm]
        obtain ⟨b1, b2, b3⟩ := ihall h hlt
        refine ⟨b1, b2, ?_⟩
        by_cases hz : h = 0
        · rw [if_pos hz]; rw [if_pos hz] at b3; exact b3
        · rw [if_neg hz, hprev (h - 1) (lt_of_le_of_lt (Nat.pred_le h) hlt)]
          rw [if_neg hz] at b3; exact b3
      · subst heq
        rw [hnth]
        refine ⟨hg0, hgc, ?_⟩
        by_cases hz : h = 0
        · subst hz
          rw [if_pos rfl]
          rw [if_pos rfl] at ihgaeq
          linarith
        · rw [if_neg hz, hprev (h - 1) (Nat.pred_lt hz)]
          rw [if_neg hz] at ihgaeq
          linarith

/-- C5: with non-negative installed gas capacity, the stored hourly gas
output of every run satisfies the ramp constraint: at hour 0 it is at
most `ccgt * RAMPA_CCGT` (0.15 of installed capacity, the ramp
reference starting at 0), and at every later hour it is at most the
previous hour's gas output plus `ccgt * RAMPA_CCGT`, as well as at most
the installed capacity. -/
theorem C5_rampa_gas (p : Params) (hcc : 0 ≤ p.ccgt) :
    ((simular p).mix.getD 0 Gen.cero).gas ≤ p.ccgt * RAMPA_CCGT ∧
    ∀ h : ℕ, 0 < h → h < HORAS_ANUALES →
      ((simular p).mix.getD h Gen.cero).gas ≤
          ((simular p).mix.getD (h - 1) Gen.cero).gas + p.ccgt * RAMPA_CCGT ∧
        ((simular p).mix.getD h Gen.cero).gas ≤ p.ccgt := by
  have hmix : (simular p).mix =
      (estadoParcial p (p.semilla * 7 + 13) (p.semilla * 3 + 7)
        (p.semilla * 11 + 37) HORAS_ANUALES).mix := rfl
  obtain ⟨-, -, -, hall⟩ := gas_mix_invariante p hcc (p.semilla * 7 + 13)
    (p.semilla * 3 + 7) (p.semilla * 11 + 37) HORAS_ANUALES
  constructor
  · have h0 := (hall 0 (by norm_num [HORAS_ANUALES])).2.2
    rw [if_pos rfl, zero_add] at h0
    rw [hmix]
    exact h0
  · intro h hpos hlt
    obtain ⟨-, b2, b3⟩ := hall h hlt
    rw [if_neg (Nat.pos_iff_ne_zero.mp hpos)] at b3
    rw [hmix]
    exact ⟨b3, b2⟩

/-- Witness for C5 at the default parameters (24 GW installed gas). -/
theorem C5_rampa_gas_witness :
    ((simular PARAMS_DEFAULT).mix.getD 0 Gen.cero).gas ≤
        PARAMS_DEFAULT.ccgt * RAMPA_CCGT ∧
    ∀ h : ℕ, 0 < h → h < HORAS_ANUALES →
      ((simular PARAMS_DEFAULT).mix.getD h Gen.cero).gas ≤
          ((simular PARAMS_DEFAULT).mix.getD (h - 1) Gen.cero).gas +
            PARAMS_DEFAULT.ccgt * RAMPA_CCGT ∧
        ((simular PARAMS_DEFAULT).mix.getD h Gen.cero).gas ≤ PARAMS_DEFAULT.ccgt :=
  C5_rampa_gas PARAMS_DEFAULT (by norm_num [PARAMS_DEFAULT])

/-! ### C9: percentile ordering -/

theorem sorted_getD_mono {l : List ℝ} (hs : l.Sorted (· ≤ ·)) {i j : ℕ}
    (hij : i ≤ j) (hj : j < l.length) : l.getD i 0 ≤ l.getD j 0 := by
  rw [List.getD_eq_getElem l 0 (lt_of_le_of_lt hij hj), List.getD_eq_getElem l 0 hj]
  rcases eq_or_lt_of_le hij with heq | hlt
  · subst heq; exact le_refl _
  · exact List.pairwise_iff_getElem.mp hs i j (lt_of_le_of_lt hij hj) hj hlt

theorem percentil_forma (arr : List ℝ) (p : ℝ) (harr : ¬arr = []) :
    percentil arr p =
      (arr.insertionSort (· ≤ ·)).getD (⌊((arr.length : ℝ) - 1) * (p / 100)⌋).toNat 0 +
        ((arr.insertionSort (· ≤ ·)).getD (⌈((arr.length : ℝ) - 1) * (p / 100)⌉).toNat 0 -
         (arr.insertionSort (· ≤ ·)).getD (⌊((arr.length : ℝ) - 1) * (p / 100)⌋).toNat 0) *
          (((arr.length : ℝ) - 1) * (p / 100) -
            ((⌊((arr.length : ℝ) - 1) * (p / 100)⌋ : ℤ) : ℝ)) := by
  unfold percentil
  rw [if_neg harr]
  dsimp only
  set k := ((arr.length : ℝ) - 1) * (p / 100) with hk
  split_ifs with hfc
  · have h1 := Int.floor_le k
    have h2 := Int.le_ceil k
    rw [← hfc] at h2
    have : k - ((⌊k⌋ : ℤ) : ℝ) = 0 := by linarith
    rw [this, mul_zero, add_zero]
  · rfl

theorem percentil_mono (arr : List ℝ) (p1 p2 : ℝ)
    (h0 : 0 ≤ p1) (h12 : p1 ≤ p2) (h100 : p2 ≤ 100) :
    percentil arr p1 ≤ percentil arr p2 := by
  by_cases harr : arr = []
  · unfold percentil
    rw [if_pos harr, if_pos harr]
  · rw [percentil_forma arr p1 harr, percentil_forma arr p2 harr]
    have hs : (arr.insertionSort (· ≤ ·)).Sorted (· ≤ ·) :=
      List.sorted_insertionSort _ arr
    have hlen : (arr.insertionSort (· ≤ ·)).length = arr.length :=
      (List.perm_insertionSort _ arr).length_eq
    have hn1 : 1 ≤ arr.length := List.length_pos.mpr harr
    have hn1R : (1 : ℝ) ≤ (arr.length : ℝ) := by exact_mod_cast hn1
    set L := arr.insertionSort (· ≤ ·)
    set k1 := ((arr.length : ℝ) - 1) * (p1 / 100) with hk1
    set k2 := ((arr.length : ℝ) - 1) * (p2 / 100) with hk2
    have hk10 : 0 ≤ k1 :=
      mul_nonneg (by linarith) (div_nonneg h0 (by norm_num))
    have hk12 : k1 ≤ k2 :=
      mul_le_mul_of_nonneg_left (by linarith) (by linarith)
    have hk2top : k2 ≤ (arr.length : ℝ) - 1 := by
      rw [hk2]
      calc ((arr.length : ℝ) - 1) * (p2 / 100) ≤ ((arr.length : ℝ) - 1) * 1 :=
            mul_le_mul_of_nonneg_left (by linarith) (by linarith)
        _ = (arr.length : ℝ) - 1 := mul_one _
    -- integer index facts
    have hf10 : 0 ≤ ⌊k1⌋ := Int.floor_nonneg.mpr hk10
    have hf20 : 0 ≤ ⌊k2⌋ := Int.floor_nonneg.mpr (le_trans hk10 hk12)
    have hc10 : 0 ≤ ⌈k1⌉ := le_trans hf10 (Int.floor_le_ceil k1)
    have hc20 : 0 ≤ ⌈k2⌉ := le_trans hf20 (Int.floor_le_ceil k2)
    have hc2top : ⌈k2⌉ ≤ (arr.length : ℤ) - 1 := by
      rw [Int.ceil_le]
      push_cast
      linarith
    have hc1top : ⌈k1⌉ ≤ (arr.length : ℤ) - 1 :=
      le_trans (Int.ceil_le_ceil (by exact hk12)) hc2top
    have hidx : ∀ m : ℤ, 0 ≤ m → m ≤ (arr.length : ℤ) - 1 → m.toNat < L.length := by
      intro m hm0 hmtop
      rw [hlen]
      omega
    have hc1 : (⌈k1⌉).toNat < L.length := hidx _ hc10 hc1top
    have hc2 : (⌈k2⌉).toNat < L.length := hidx _ hc20 hc2top
    have hq1 : L.getD (⌊k1⌋).toNat 0 ≤ L.getD (⌈k1⌉).toNat 0 :=
      sorted_getD_mono hs (Int.toNat_le_toNat (Int.floor_le_ceil k1)) hc1
    have hq2 : L.getD (⌊k2⌋).toNat 0 ≤ L.getD (⌈k2⌉).toNat 0 :=
      sorted_getD_mono hs (Int.toNat_le_toNat (Int.floor_le_ceil k2)) hc2
    have ht10 : 0 ≤ k1 - ((⌊k1⌋ : ℤ) : ℝ) := sub_nonneg.mpr (Int.floor_le k1)
    have ht11 : k1 - ((⌊k1⌋ : ℤ) : ℝ) ≤ 1 := by
      have := Int.lt_floor_add_one k1
      push_cast at this
      linarith
    have ht20 : 0 ≤ k2 - ((⌊k2⌋ : ℤ) : ℝ) := sub_nonneg.mpr (Int.floor_le k2)
    by_cases hff : ⌊k1⌋ = ⌊k2⌋
    · by_cases hcc1 : ⌊k1⌋ = ⌈k1⌉
      · have hk1f : k1 = ((⌊k1⌋ : ℤ) : ℝ) := by
          have h1 := Int.floor_le k1
          have h2 := Int.le_ceil k1
          rw [← hcc1] at h2
          linarith
        have h2n : 0 ≤ (L.getD (⌈k2⌉).toNat 0 - L.getD (⌊k2⌋).toNat 0) *
            (k2 - ((⌊k2⌋ : ℤ) : ℝ)) :=
          mul_nonneg (by linarith) ht20
        have ht1z : k1 - ((⌊k1⌋ : ℤ) : ℝ) = 0 := by linarith
        rw [ht1z, mul_zero, add_zero, hff]
        linarith
      · have hc1f : ⌈k1⌉ = ⌊k1⌋ + 1 := by
          have h1 := Int.ceil_le_floor_add_one k1
          have h2 := Int.floor_le_ceil k1
          omega
        have hc2f : ⌈k2⌉ = ⌊k1⌋ + 1 := by
          have h1 := Int.ceil_le_floor_add_one k2
          have h2 := Int.floor_le_ceil k2
          rw [← hff] at h1 h2
          by_contra hne
          have hc2eq : ⌈k2⌉ = ⌊k1⌋ := by omega
          have hk2le : k2 ≤ ((⌊k1⌋ : ℤ) : ℝ) := by
            have := Int.ceil_le.mp (le_of_eq hc2eq)
            exact_mod_cast this
          have hk1le : k1 ≤ ((⌊k1⌋ : ℤ) : ℝ) := le_trans hk12 hk2le
          have : ⌈k1⌉ ≤ ⌊k1⌋ := Int.ceil_le.mpr (by exact_mod_cast hk1le)
          omega
        rw [hc1f, hc2f, ← hff]
        have hΔ : 0 ≤ L.getD (⌊k1⌋ + 1).toNat 0 - L.getD (⌊k1⌋).toNat 0 := by
          have := sorted_getD_mono hs
            (Int.toNat_le_toNat (by omega : ⌊k1⌋ ≤ ⌊k1⌋ + 1))
            (hidx _ (by omega) (by rw [← hc1f]; exact hc1top))
          linarith
        nlinarith [mul_nonneg hΔ (by linarith : (0 : ℝ) ≤ k2 - k1)]
    · have hflt : ⌊k1⌋ < ⌊k2⌋ := lt_of_le_of_ne (Int.floor_le_floor hk12) hff
      have hc1f2 : ⌈k1⌉ ≤ ⌊k2⌋ := le_trans (Int.ceil_le_floor_add_one k1) (by omega)
      have hA1 : L.getD (⌊k1⌋).toNat 0 +
          (L.getD (⌈k1⌉).toNat 0 - L.getD (⌊k1⌋).toNat 0) * (k1 - ((⌊k1⌋ : ℤ) : ℝ)) ≤
            L.getD (⌈k1⌉).toNat 0 := by nlinarith [hq1, ht10, ht11]
      have hmid : L.getD (⌈k1⌉).toNat 0 ≤ L.getD (⌊k2⌋).toNat 0 :=
        sorted_getD_mono hs (Int.toNat_le_toNat hc1f2)
          (hidx _ hf20 (le_trans (Int.floor_le_ceil k2) hc2top))
      have hA2 : L.getD (⌊k2⌋).toNat 0 ≤ L.getD (⌊k2⌋).toNat 0 +
          (L.getD (⌈k2⌉).toNat 0 - L.getD (⌊k2⌋).toNat 0) * (k2 - ((⌊k2⌋ : ℤ) : ℝ)) := by
        nlinarith [hq2, ht20]
      linarith

/-- C9: in every `Results` of `simular()`, the price percentiles are
ordered `precioP10 <= precioMediana <= precioP90`, because the
linear-interpolation percentile over the sorted price array is monotone
non-decreasing in the percentile argument. -/
theorem C9_percentiles_ordenados :
    ∀ p : Params, ((simular p).precioP10 ≤ (simular p).precioMediana ∧
      (simular p).precioMediana ≤ (simular p).precioP90) ∧
    ∀ (arr : List ℝ) (q1 q2 : ℝ), 0 ≤ q1 → q1 ≤ q2 → q2 ≤ 100 →
      percentil arr q1 ≤ percentil arr q2 := by
  intro p
  have h10 : (simular p).precioP10 =
      percentil (estadoParcial p (p.semilla * 7 + 13) (p.semilla * 3 + 7)
        (p.semilla * 11 + 37) HORAS_ANUALES).precios 10 := rfl
  have h50 : (simular p).precioMediana =
      percentil (estadoParcial p (p.semilla * 7 + 13) (p.semilla * 3 + 7)
        (p.semilla * 11 + 37) HORAS_ANUALES).precios 50 := rfl
  have h90 : (simular p).precioP90 =
      percentil (estadoParcial p (p.semilla * 7 + 13) (p.semilla * 3 + 7)
        (p.semilla * 11 + 37) HORAS_ANUALES).precios 90 := rfl
  refine ⟨⟨?_, ?_⟩, fun arr q1 q2 a b c => percentil_mono arr q1 q2 a b c⟩
  · rw [h10, h50]
    exact percentil_mono _ 10 50 (by norm_num) (by norm_num) (by norm_num)
  · rw [h50, h90]
    exact percentil_mono _ 50 90 (by norm_num) (by norm_num) (by norm_num)

/-! ### C6: monotonicity in the scarcity price -/

theorem precioFinal_mono {P m r c e1 e2 : ℝ} (d : Prop) [Decidable d]
    (hm : d → 0 ≤ m) (hr : -1 ≤ r) (he : e1 ≤ e2) :
    min 500 (max (-25) ((if d then max P (e1 * m) else P) * (1 + r) + c)) ≤
      min 500 (max (-25) ((if d then max P (e2 * m) else P) * (1 + r) + c)) := by
  have h3 : (if d then max P (e1 * m) else P) ≤ (if d then max P (e2 * m) else P) := by
    split_ifs with hd
    · exact max_le_max (le_refl P) (mul_le_mul_of_nonneg_right he (hm hd))
    · exact le_refl P
  have h4 : (if d then max P (e1 * m) else P) * (1 + r) + c ≤
      (if d then max P (e2 * m) else P) * (1 + r) + c :=
    add_le_add_right (mul_le_mul_of_nonneg_right h3 (by linarith)) c
  exact min_le_min (le_refl 500) (max_le_max (le_refl (-25)) h4)

theorem precio_mono_escasez (p : Params) (e2 : ℝ) (gen : Gen) (dem ratio : ℝ)
    (ctx : Contexto) (gasAnt : ℝ)
    (he : p.precioEscasez ≤ e2) (hr : -1 ≤ p.perdidasRed) :
    calcularPrecioMarginal p gen dem ratio ctx gasAnt ≤
      calcularPrecioMarginal { p with precioEscasez := e2 } gen dem ratio ctx gasAnt := by
  unfold calcularPrecioMarginal
  dsimp only
  exact precioFinal_mono _
    (fun hd => le_min (by norm_num)
      (mul_nonneg
        (div_nonneg (by linarith) (le_trans zero_le_one (le_max_left 1 dem)))
        (by norm_num)))
    hr he

theorem despacho_escasez (p : Params) (e2 : ℝ) (dia : ℕ) (dem gN gS gE bat bomb gasAnt : ℝ) :
    despacho { p with precioEscasez := e2 } dia dem gN gS gE bat bomb gasAnt =
      despacho p dia dem gN gS gE bat bomb gasAnt := rfl

theorem despachoHora_escasez (p : Params) (e2 : ℝ) (n m : ℝ) (sv sd : List ℝ)
    (st1 st2 : Estado) (h : ℕ)
    (hb : st1.bateria = st2.bateria) (ho : st1.bombeo = st2.bombeo)
    (hg : st1.gasAnterior = st2.gasAnterior) (hrng : st1.rngMeteo = st2.rngMeteo) :
    despachoHora { p with precioEscasez := e2 } n m sv sd st2 h =
      despachoHora p n m sv sd st1 h := by
  rw [despachoHora_def, despachoHora_def, despacho_escasez, hb, ho, hg, hrng]

theorem precioHora_escasez (p : Params) (e2 : ℝ) (n m : ℝ) (sv sd : List ℝ)
    (st1 st2 : Estado) (h : ℕ)
    (he : p.precioEscasez ≤ e2) (hr : -1 ≤ p.perdidasRed)
    (hb : st1.bateria = st2.bateria) (ho : st1.bombeo = st2.bombeo)
    (hg : st1.gasAnterior = st2.gasAnterior) (hrng : st1.rngMeteo = st2.rngMeteo) :
    precioHora p n m sv sd st1 h ≤
      precioHora { p with precioEscasez := e2 } n m sv sd st2 h := by
  have hd := despachoHora_escasez p e2 n m sv sd st1 st2 h hb ho hg hrng
  unfold precioHora
  dsimp only
  rw [hd, hrng, hg]
  exact precio_mono_escasez p e2 _ _ _ _ _ he hr

theorem pasoHora_escasez (p : Params) (e2 : ℝ) (n m : ℝ) (sv sd : List ℝ)
    (st1 st2 : Estado) (h : ℕ)
    (he : p.precioEscasez ≤ e2) (hr : -1 ≤ p.perdidasRed)
    (hb : st1.bateria = st2.bateria) (ho : st1.bombeo = st2.bombeo)
    (hg : st1.gasAnterior = st2.gasAnterior) (hrng : st1.rngMeteo = st2.rngMeteo)
    (hcount : st1.horasPrecioAlto ≤ st2.horasPrecioAlto) :
    (pasoHora p n m sv sd st1 h).bateria =
        (pasoHora { p with precioEscasez := e2 } n m sv sd st2 h).bateria ∧
    (pasoHora p n m sv sd st1 h).bombeo =
        (pasoHora { p with precioEscasez := e2 } n m sv sd st2 h).bombeo ∧
    (pasoHora p n m sv sd st1 h).gasAnterior =
        (pasoHora { p with precioEscasez := e2 } n m sv sd st2 h).gasAnterior ∧
    (pasoHora p n m sv sd st1 h).rngMeteo =
        (pasoHora { p with precioEscasez := e2 } n m sv sd st2 h).rngMeteo ∧
    (pasoHora p n m sv sd st1 h).horasPrecioAlto ≤
        (pasoHora { p with precioEscasez := e2 } n m sv sd st2 h).horasPrecioAlto := by
  have hd := despachoHora_escasez p e2 n m sv sd st1 st2 h hb ho hg hrng
  have hpr := precioHora_escasez p e2 n m sv sd st1 st2 h he hr hb ho hg hrng
  refine ⟨?_, ?_, ?_, ?_, ?_⟩
  · rw [pasoHora_bateria, pasoHora_bateria, hd]
  · rw [pasoHora_bombeo, pasoHora_bombeo, hd]
  · rw [pasoHora_gasAnterior, pasoHora_gasAnterior, hd]
  · rw [pasoHora_rngMeteo, pasoHora_rngMeteo, hrng]
  · rw [pasoHora_horasPrecioAlto, pasoHora_horasPrecioAlto]
    have hps : (if 150 < precioHora p n m sv sd st1 h then 1 else 0) ≤
        (if 150 < precioHora { p with precioEscasez := e2 } n m sv sd st2 h
         then 1 else 0) := by
      split_ifs with h1 h2
      · exact le_refl 1
      · exact absurd (lt_of_lt_of_le h1 hpr) h2
      · exact Nat.zero_le 1
      · exact le_refl 0
    exact Nat.add_le_add hcount hps

theorem estadoParcial_escasez (p : Params) (e2 : ℝ) (s1 s2 s3 : ℝ)
    (he : p.precioEscasez ≤ e2) (hr : -1 ≤ p.perdidasRed) :
    ∀ n : ℕ,
      (estadoParcial p s1 s2 s3 n).bateria =
          (estadoParcial { p with precioEscasez := e2 } s1 s2 s3 n).bateria ∧
      (estadoParcial p s1 s2 s3 n).bombeo =
          (estadoParcial { p with precioEscasez := e2 } s1 s2 s3 n).bombeo ∧
      (estadoParcial p s1 s2 s3 n).gasAnterior =
          (estadoParcial { p with precioEscasez := e2 } s1 s2 s3 n).gasAnterior ∧
      (estadoParcial p s1 s2 s3 n).rngMeteo =
          (estadoParcial { p with precioEscasez := e2 } s1 s2 s3 n).rngMeteo ∧
      (estadoParcial p s1 s2 s3 n).horasPrecioAlto ≤
          (estadoParcial { p with precioEscasez := e2 } s1 s2 s3 n).horasPrecioAlto := by
  intro n
  induction n with
  | zero =>
    rw [estadoParcial_zero, estadoParcial_zero]
    exact ⟨rfl, rfl, rfl, rfl, le_refl 0⟩
  | succ n ih =>
    obtain ⟨hb, ho, hg, hrng, hcount⟩ := ih
    rw [estadoParcial_succ, estadoParcial_succ]
    have hnuc : calcularNuclearDisponible { p with precioEscasez := e2 } =
        calcularNuclearDisponible p := rfl
    have hdem : calcularDemandaAjustada { p with precioEscasez := e2 } =
        calcularDemandaAjustada p := rfl
    rw [hnuc, hdem]
    exact pasoHora_escasez p e2 _ _ _ _ _ _ n he hr hb ho hg hrng hcount

/-- C6 (amended): for two configurations identical except for the
scarcity reference price, with the second no smaller, and a regulated
pass-through slope that is non-negative (`-1 ≤ perdidasRed`, true of
every physical loss rate), the count of high-price hours of the second
run is at least that of the first: the dispatch outcome is independent
of the scarcity price and the per-hour price is then monotone
non-decreasing in it. -/
theorem C6_escasez_monotonia (p : Params) (e2 : ℝ)
    (he : p.precioEscasez ≤ e2) (hr : -1 ≤ p.perdidasRed) :
    (simular p).horasPrecioAlto ≤
      (simular { p with precioEscasez := e2 }).horasPrecioAlto := by
  have h1 : (simular p).horasPrecioAlto =
      (estadoParcial p (p.semilla * 7 + 13) (p.semilla * 3 + 7)
        (p.semilla * 11 + 37) HORAS_ANUALES).horasPrecioAlto := rfl
  have h2 : (simular { p with precioEscasez := e2 }).horasPrecioAlto =
      (estadoParcial { p with precioEscasez := e2 } (p.semilla * 7 + 13)
        (p.semilla * 3 + 7) (p.semilla * 11 + 37) HORAS_ANUALES).horasPrecioAlto := rfl
  rw [h1, h2]
  exact (estadoParcial_escasez p e2 (p.semilla * 7 + 13) (p.semilla * 3 + 7)
    (p.semilla * 11 + 37) he hr HORAS_ANUALES).2.2.2.2

/-- Witness for C6 at the default parameters, raising the scarcity
price from 350 to 400. -/
theorem C6_escasez_monotonia_witness :
    (simular PARAMS_DEFAULT).horasPrecioAlto ≤
      (simular { PARAMS_DEFAULT with precioEscasez := 400 }).horasPrecioAlto :=
  C6_escasez_monotonia PARAMS_DEFAULT 400 (by norm_num [PARAMS_DEFAULT])
    (by norm_num [PARAMS_DEFAULT])

/-- C6 counterexample: with a negative pass-through slope
(`perdidasRed = -3`, so `1 + perdidasRed = -2`) and a 200 system
charge, raising the scarcity price from 0 to 100 strictly lowers the
hour's clamped price (200 versus 0) in a deficit hour: the per-hour
price is not monotone non-decreasing in the scarcity price for
arbitrary configurations, contradicting the claim's premise. -/
theorem C6_escasez_monotonia_cx :
    paramsCx6.precioEscasez <
        ({ paramsCx6 with precioEscasez := 100 } : Params).precioEscasez ∧
    ¬(calcularPrecioMarginal paramsCx6 Gen.cero 1 2 ⟨0, 0, 1⟩ 0 ≤
        calcularPrecioMarginal { paramsCx6 with precioEscasez := 100 }
          Gen.cero 1 2 ⟨0, 0, 1⟩ 0) := by
  have h1 : calcularPrecioMarginal paramsCx6 Gen.cero 1 2 ⟨0, 0, 1⟩ 0 = 200 := by
    norm_num [calcularPrecioMarginal, paramsCx6, paramsCero, Gen.cero, min_def, max_def]
  have h2 : calcularPrecioMarginal { paramsCx6 with precioEscasez := 100 }
      Gen.cero 1 2 ⟨0, 0, 1⟩ 0 = 0 := by
    norm_num [calcularPrecioMarginal, paramsCx6, paramsCero, Gen.cero, min_def, max_def]
  rw [h1, h2]
  norm_num [paramsCx6, paramsCero]

/-! ### C7: the solar capacity-factor formula -/

set_option maxHeartbeats 2000000 in
/-- Numeric bounds: at day 87, hour 6 the solar-elevation sine lies in
(0.01, 0.05), inside the code's air-mass clamp window (the hour angle
is exactly -pi/2, so the elevation reduces to sin(lat)*sin(decl)). -/
theorem sinElevDe_87_6 : 0.01 < sinElevDe 87 6 ∧ sinElevDe 87 6 < 0.05 := by
  have hpi1 := Real.pi_gt_d6
  have hpi2 := Real.pi_lt_d6
  unfold sinElevDe LATITUD_ESPANA
  have hcosom : Real.cos ((((6 : ℕ) : ℝ) - 12) * 15 * Real.pi / 180) = 0 := by
    have harg : (((6 : ℕ) : ℝ) - 12) * 15 * Real.pi / 180 = -(Real.pi / 2) := by
      push_cast; ring
    rw [harg, Real.cos_neg, Real.cos_pi_div_two]
  rw [hcosom, mul_zero, add_zero]
  have hred : Real.sin (2 * Real.pi * (284 + ((87 : ℕ) : ℝ)) / 365) =
      Real.sin (12 * Real.pi / 365) := by
    have harg : 2 * Real.pi * (284 + ((87 : ℕ) : ℝ)) / 365 =
        12 * Real.pi / 365 + 2 * Real.pi := by push_cast; ring
    rw [harg, Real.sin_add_two_pi]
  rw [hred]
  -- bounds for the inner angle A = 12*pi/365
  have hA1 : (0.1032 : ℝ) < 12 * Real.pi / 365 := by linarith
  have hA2 : 12 * Real.pi / 365 < (0.1033 : ℝ) := by linarith
  have hApos : (0 : ℝ) < 12 * Real.pi / 365 := by linarith
  -- sin A via the Taylor bound
  have hsinAb := Real.sin_bound (x := 12 * Real.pi / 365)
    (by rw [abs_of_pos hApos]; linarith)
  rw [abs_of_pos hApos] at hsinAb
  obtain ⟨hsAl, hsAu⟩ := abs_le.mp hsinAb
  have hA3u : (12 * Real.pi / 365) ^ 3 < 0.0011024 :=
    lt_of_lt_of_le (pow_lt_pow_left₀ hA2 (by linarith) (by norm_num)) (by norm_num)
  have hA3l : (0.001099 : ℝ) < (12 * Real.pi / 365) ^ 3 :=
    lt_of_le_of_lt (by norm_num) (pow_lt_pow_left₀ hA1 (by norm_num) (by norm_num))
  have hA4u : (12 * Real.pi / 365) ^ 4 < 0.0001139 :=
    lt_of_lt_of_le (pow_lt_pow_left₀ hA2 (by linarith) (by norm_num)) (by norm_num)
  have hsinA1 : (0.1 : ℝ) < Real.sin (12 * Real.pi / 365) := by nlinarith
  have hsinA2 : Real.sin (12 * Real.pi / 365) < (0.11 : ℝ) := by nlinarith
  -- bounds for the declination B = 23.45 * sin A * pi / 180
  have hm1 : (0.1 : ℝ) * 3.141592 < Real.sin (12 * Real.pi / 365) * Real.pi :=
    mul_lt_mul'' hsinA1 hpi1 (by norm_num) (by norm_num)
  have hm2 : Real.sin (12 * Real.pi / 365) * Real.pi < (0.11 : ℝ) * 3.141593 :=
    mul_lt_mul'' hsinA2 hpi2 (by linarith) (by linarith)
  have hB1 : (0.040 : ℝ) < 23.45 * Real.sin (12 * Real.pi / 365) * Real.pi / 180 := by
    nlinarith
  have hB2 : 23.45 * Real.sin (12 * Real.pi / 365) * Real.pi / 180 < (0.045 : ℝ) := by
    nlinarith
  have hBpos : (0 : ℝ) < 23.45 * Real.sin (12 * Real.pi / 365) * Real.pi / 180 := by
    linarith
  -- sin B
  have hsinBb := Real.sin_bound
    (x := 23.45 * Real.sin (12 * Real.pi / 365) * Real.pi / 180)
    (by rw [abs_of_pos hBpos]; linarith)
  rw [abs_of_pos hBpos] at hsinBb
  obtain ⟨hsBl, hsBu⟩ := abs_le.mp hsinBb
  have hB3u : (23.45 * Real.sin (12 * Real.pi / 365) * Real.pi / 180) ^ 3 < 0.0000912 :=
    lt_of_lt_of_le (pow_lt_pow_left₀ hB2 (by linarith) (by norm_num)) (by norm_num)
  have hB4u : (23.45 * Real.sin (12 * Real.pi / 365) * Real.pi / 180) ^ 4 < 0.0000042 :=
    lt_of_lt_of_le (pow_lt_pow_left₀ hB2 (by linarith) (by norm_num)) (by norm_num)
  have hsinB1 : (0.0399 : ℝ) <
      Real.sin (23.45 * Real.sin (12 * Real.pi / 365) * Real.pi / 180) := by nlinarith
  have hsinB2 : Real.sin (23.45 * Real.sin (12 * Real.pi / 365) * Real.pi / 180) <
      (0.045 : ℝ) := by nlinarith
  -- bounds for the latitude C = 40.4 * pi / 180
  have hC1 : (0.705 : ℝ) < 40.4 * Real.pi / 180 := by linarith
  have hC2 : 40.4 * Real.pi / 180 < (0.7052 : ℝ) := by linarith
  have hCpos : (0 : ℝ) < 40.4 * Real.pi / 180 := by linarith
  have hsinCb := Real.sin_bound (x := 40.4 * Real.pi / 180)
    (by rw [abs_of_pos hCpos]; linarith)
  rw [abs_of_pos hCpos] at hsinCb
  obtain ⟨hsCl, hsCu⟩ := abs_le.mp hsinCb
  have hC3u : (40.4 * Real.pi / 180) ^ 3 < 0.35072 :=
    lt_of_lt_of_le (pow_lt_pow_left₀ hC2 (by linarith) (by norm_num)) (by norm_num)
  have hC3l : (0.35 : ℝ) < (40.4 * Real.pi / 180) ^ 3 :=
    lt_of_le_of_lt (by norm_num) (pow_lt_pow_left₀ hC1 (by norm_num) (by norm_num))
  have hC4u : (40.4 * Real.pi / 180) ^ 4 < 0.24733 :=
    lt_of_lt_of_le (pow_lt_pow_left₀ hC2 (by linarith) (by norm_num)) (by norm_num)
  have hsinC1 : (0.63 : ℝ) < Real.sin (40.4 * Real.pi / 180) := by nlinarith
  have hsinC2 : Real.sin (40.4 * Real.pi / 180) < (0.66 : ℝ) := by nlinarith
  constructor
  · nlinarith [mul_lt_mul'' hsinC1 hsinB1 (by norm_num) (by norm_num)]
  · nlinarith [mul_lt_mul'' hsinC2 hsinB2 (by linarith) (by linarith)]

/-- C7 counterexample: at day 87, hour 6 (a dawn hour where the sine
of the solar elevation lies strictly between 0.01 and 0.05) with a
clear sky, the code value of `calcularSolar` differs from the claim's
formula with air mass `1/sin(elevation)`: the code clamps the air mass
via `max(0.05, sinElev)`, giving a strictly larger transmittance. -/
theorem C7_solar_geometria_cx :
    0.01 < sinElevDe 87 6 ∧
    calcularSolar 87 6 1 ≠
      max 0 (min 1 (sinElevDe 87 6 *
        (0.75 * (0.70 : ℝ) ^ ((1 / sinElevDe 87 6) ^ (0.678 : ℝ))) * 1 * 1.35)) := by
  obtain ⟨hlo, hhi⟩ := sinElevDe_87_6
  refine ⟨hlo, ?_⟩
  have hpos : (0 : ℝ) < sinElevDe 87 6 := by linarith
  have hfold : calcularSolar 87 6 1 =
      (if sinElevDe 87 6 ≤ 0.01 then 0 else
        max 0 (min 1 (sinElevDe 87 6 *
          (0.75 * (0.70 : ℝ) ^ ((1 / max 0.05 (sinElevDe 87 6)) ^ (0.678 : ℝ))) * 1 * 1.35))) := rfl
  rw [hfold, if_neg (not_le.mpr hlo)]
  have hmax : max (0.05 : ℝ) (sinElevDe 87 6) = 0.05 := max_eq_left (le_of_lt hhi)
  rw [hmax, show (1 : ℝ) / 0.05 = 20 by norm_num]
  -- the exponents
  have h20 : (20 : ℝ) < 1 / sinElevDe 87 6 := by
    rw [lt_div_iff₀ hpos]; linarith
  have hy : (20 : ℝ) ^ (0.678 : ℝ) < (1 / sinElevDe 87 6) ^ (0.678 : ℝ) :=
    Real.rpow_lt_rpow (by norm_num) h20 (by norm_num)
  have ht : (0.70 : ℝ) ^ ((1 / sinElevDe 87 6) ^ (0.678 : ℝ)) <
      (0.70 : ℝ) ^ ((20 : ℝ) ^ (0.678 : ℝ)) :=
    Real.rpow_lt_rpow_of_exponent_gt (by norm_num) (by norm_num) hy
  have ht1pos : (0 : ℝ) < (0.70 : ℝ) ^ ((20 : ℝ) ^ (0.678 : ℝ)) :=
    Real.rpow_pos_of_pos (by norm_num) _
  have ht2pos : (0 : ℝ) < (0.70 : ℝ) ^ ((1 / sinElevDe 87 6) ^ (0.678 : ℝ)) :=
    Real.rpow_pos_of_pos (by norm_num) _
  have ht1le : (0.70 : ℝ) ^ ((20 : ℝ) ^ (0.678 : ℝ)) ≤ 1 :=
    Real.rpow_le_one (by norm_num) (by norm_num) (Real.rpow_nonneg (by norm_num) _)
  have ht2le : (0.70 : ℝ) ^ ((1 / sinElevDe 87 6) ^ (0.678 : ℝ)) ≤ 1 := by linarith
  -- both inner values are in (0, 1)
  have hin1 : sinElevDe 87 6 *
      (0.75 * (0.70 : ℝ) ^ ((20 : ℝ) ^ (0.678 : ℝ))) * 1 * 1.35 ≤ 0.06 := by
    nlinarith
  have hin1pos : 0 < sinElevDe 87 6 *
      (0.75 * (0.70 : ℝ) ^ ((20 : ℝ) ^ (0.678 : ℝ))) * 1 * 1.35 := by positivity
  have hin2 : sinElevDe 87 6 *
      (0.75 * (0.70 : ℝ) ^ ((1 / sinElevDe 87 6) ^ (0.678 : ℝ))) * 1 * 1.35 ≤ 0.06 := by
    nlinarith
  have hin2pos : 0 < sinElevDe 87 6 *
      (0.75 * (0.70 : ℝ) ^ ((1 / sinElevDe 87 6) ^ (0.678 : ℝ))) * 1 * 1.35 := by positivity
  rw [min_eq_right (by linarith), min_eq_right (by linarith),
    max_eq_right (by linarith), max_eq_right (by linarith)]
  have hstrict : sinElevDe 87 6 *
      (0.75 * (0.70 : ℝ) ^ ((1 / sinElevDe 87 6) ^ (0.678 : ℝ))) * 1 * 1.35 <
      sinElevDe 87 6 *
      (0.75 * (0.70 : ℝ) ^ ((20 : ℝ) ^ (0.678 : ℝ))) * 1 * 1.35 := by
    nlinarith
  exact hstrict.ne'

/-- C7 (amended): for every day of year, hour of day and cloud factor
in [0,1], when the solar-elevation sine is at or below 0.01 the solar
capacity factor is exactly 0; otherwise it equals the clamp to [0,1]
of `sinElev * transmittance * cloud * 1.35` with transmittance
`0.75 * 0.70 ^ (AM ^ 0.678)` and air mass `AM = 1 / max(0.05, sinElev)`
(the claim's `AM = 1/sin(elevation)` amended with the code's 0.05
clamp). -/
theorem C7_solar_geometria (dia hora : ℕ) (nubes : ℝ)
    (hdia : dia ≤ 364) (hhora : hora ≤ 23) (hn0 : 0 ≤ nubes) (hn1 : nubes ≤ 1) :
    (sinElevDe dia hora ≤ 0.01 → calcularSolar dia hora nubes = 0) ∧
    (0.01 < sinElevDe dia hora →
      calcularSolar dia hora nubes =
        max 0 (min 1 (sinElevDe dia hora *
          (0.75 * (0.70 : ℝ) ^ ((1 / max 0.05 (sinElevDe dia hora)) ^ (0.678 : ℝ))) *
          nubes * 1.35))) := by
  have hfold : calcularSolar dia hora nubes =
      (if sinElevDe dia hora ≤ 0.01 then 0 else
        max 0 (min 1 (sinElevDe dia hora *
          (0.75 * (0.70 : ℝ) ^ ((1 / max 0.05 (sinElevDe dia hora)) ^ (0.678 : ℝ))) *
          nubes * 1.35))) := rfl
  constructor
  · intro h
    rw [hfold, if_pos h]
  · intro h
    rw [hfold, if_neg (not_le.mpr h)]

/-- Witness for C7 at midnight of day 0 with a clear sky. -/
theorem C7_solar_geometria_witness :
    (sinElevDe 0 0 ≤ 0.01 → calcularSolar 0 0 1 = 0) ∧
    (0.01 < sinElevDe 0 0 →
      calcularSolar 0 0 1 =
        max 0 (min 1 (sinElevDe 0 0 *
          (0.75 * (0.70 : ℝ) ^ ((1 / max 0.05 (sinElevDe 0 0)) ^ (0.678 : ℝ))) *
          1 * 1.35))) :=
  C7_solar_geometria 0 0 1 (by norm_num) (by norm_num) (by norm_num) (by norm_num)
